import Mathlib

/-!
Verification of the geospatial flood-ponding risk engine
(`backend/grid.py`, `backend/risk.py`, `backend/schemas.py`).

Shallow embedding conventions:
* Machine floats are idealised as rationals `ℚ`.  IEEE NaN (numpy's no-data
  sentinel) is modelled by `Option ℚ` with `none` playing the role of NaN;
  arithmetic propagates `none` exactly as float arithmetic propagates NaN.
  Division by zero yields a non-finite float (NaN for 0/0), modelled as `none`.
* A 2-D numpy array is a shape plus a total cell function; cells outside the
  shape are never consulted (all reads are bounds-checked first, as in the
  source).
* External collaborators (pyproj transformers, rasterio affine helpers) are
  modelled as abstract function fields of the grid record, exactly as the
  source treats them as opaque callables.
-/

/-- A float value: `none` models IEEE NaN (numpy no-data). -/
abbrev Val := Option ℚ

/-- Float addition: NaN propagates. -/
def vAdd : Val → Val → Val
  | some a, some b => some (a + b)
  | _, _ => none

/-- Float subtraction: NaN propagates. -/
def vSub : Val → Val → Val
  | some a, some b => some (a - b)
  | _, _ => none

/-- Float multiplication: NaN propagates. -/
def vMul : Val → Val → Val
  | some a, some b => some (a * b)
  | _, _ => none

/-- Float division: NaN propagates, and a zero denominator gives a non-finite
result (`0/0` is NaN; in the normalisations below the numerator is zero
whenever the denominator is, so only the NaN case is ever produced). -/
def vDiv : Val → Val → Val
  | some a, some b => if b = 0 then none else some (a / b)
  | _, _ => none

/-- `np.minimum(1.0, x)`: elementwise minimum, NaN propagates. -/
def vMinOne : Val → Val
  | some a => some (min 1 a)
  | none => none

/-- Python's builtin `min(1.0, x)`: returns `x` only when `x < 1.0` is True;
a NaN comparison is False, so `min(1.0, nan) = 1.0` (contrast `np.minimum`). -/
def pyMinOne : Val → Val
  | some a => some (min 1 a)
  | none => some 1

/-- A 2-D numpy array: shape `(height, width)` and a total cell map. -/
structure Array2 where
  height : ℕ
  width : ℕ
  val : ℕ → ℕ → Val

/-- `Grid._bilinear_interpolate(array, row, col)` (grid.py:194-236).
Bounds check `row < 0 or row >= height - 1 or col < 0 or col >= width - 1`
then the 2×2 neighbourhood read with a NaN test, then the interpolation.
`int(row)` truncates toward zero; in the in-bounds branch `row ≥ 0`, so it
equals `⌊row⌋`.  The `except IndexError` branch of the source is dead code for
in-range indices and is not modelled. -/
def bilinear_interpolate (a : Array2) (row col : ℚ) : Option ℚ :=
  if row < 0 ∨ (a.height : ℚ) - 1 ≤ row ∨ col < 0 ∨ (a.width : ℚ) - 1 ≤ col then none
  else
    match a.val (⌊row⌋).toNat (⌊col⌋).toNat, a.val (⌊row⌋).toNat ((⌊col⌋).toNat + 1),
          a.val ((⌊row⌋).toNat + 1) (⌊col⌋).toNat,
          a.val ((⌊row⌋).toNat + 1) ((⌊col⌋).toNat + 1) with
    | some v00, some v01, some v10, some v11 =>
      some ((v00 * (1 - (col - ((⌊col⌋).toNat : ℚ))) + v01 * (col - ((⌊col⌋).toNat : ℚ)))
              * (1 - (row - ((⌊row⌋).toNat : ℚ)))
            + (v10 * (1 - (col - ((⌊col⌋).toNat : ℚ))) + v11 * (col - ((⌊col⌋).toNat : ℚ)))
              * (row - ((⌊row⌋).toNat : ℚ)))
    | _, _, _, _ => none

/-- A 2×2 array holding 7 everywhere: the claim C2 counterexample grid. -/
def c2Grid : Array2 :=
  ⟨2, 2, fun _ _ => some 7⟩

/-- A 3×3 all-zero array: the claim C8 counterexample grid. -/
def c8Grid : Array2 :=
  ⟨3, 3, fun _ _ => some 0⟩

/-- The parsed `georef.json` record (grid.py:59-69, spec §6): CRS identifier
(`none` = no CRS configured), 6-parameter affine transform, projected bounds,
shape, nodata value and pixel sizes. -/
structure GeorefRec where
  crs : Option String
  transform : ℚ × ℚ × ℚ × ℚ × ℚ × ℚ
  bounds : ℚ × ℚ × ℚ × ℚ
  width : ℕ
  height : ℕ
  nodata : ℚ
  pixel_size_x : ℚ
  pixel_size_y : ℚ

/-- The processed-data directory seen by `Grid.load_data`: each of the three
input files is either present with its parsed contents (`some`) or
missing (`none`). -/
structure DataDir where
  z_npy : Option Array2
  acc_npy : Option Array2
  georef_json : Option GeorefRec

/-- `Grid.load_data` (grid.py:38-77): returns failure unless all three files
exist (`if not all(p.exists() ...)`) and otherwise loads the two arrays and
the georeference.  The transformer construction from `crs` is delegated to
the external pyproj collaborator.  Parsing of present files is assumed to
succeed (I/O errors are out of scope); note that no comparison of the two
array shapes appears anywhere in the function. -/
def load_data (d : DataDir) : Option (Array2 × Array2 × GeorefRec) :=
  match d.z_npy, d.acc_npy, d.georef_json with
  | some z, some acc, some g => some (z, acc, g)
  | _, _, _ => none

/-- A concrete georeference record for counterexamples. -/
def g0 : GeorefRec :=
  ⟨some "EPSG:26915", (5, 0, 272497, 0, -5, 3297503), (272497, 3292398, 272597, 3297503),
    2, 2, -9999, 5, 5⟩

/-- A data directory whose elevation array is 1×1 and whose flow-accumulation
array is 2×2: all three files present, shapes mismatched. -/
def c3Dir : DataDir :=
  ⟨some ⟨1, 1, fun _ _ => some 0⟩, some ⟨2, 2, fun _ _ => some 0⟩, some g0⟩

/-- `RiskParameters` (risk.py:25-35): a plain `@dataclass`; its generated
constructor assigns the fields and performs no validation whatsoever. -/
structure RiskParameters where
  rainfall_mm_per_hour : ℚ := 25
  duration_hours : ℚ := 1
  drainage_coefficient : ℚ := 1/1000000
  ponding_threshold_mm : ℚ := 50
  high_flow_accum_threshold : ℤ := 1000
  elevation_weight : ℚ := 2/5
  flow_accum_weight : ℚ := 3/10
  rainfall_weight : ℚ := 3/10

/-- The field set of `RiskModelConfig` (schemas.py:299-306). -/
structure RiskModelConfig where
  drainage_coefficient : ℚ := 1/1000000
  ponding_threshold_mm : ℚ := 50
  high_flow_accum_threshold : ℤ := 1000
  elevation_weight : ℚ := 2/5
  flow_accum_weight : ℚ := 3/10
  rainfall_weight : ℚ := 3/10

/-- The per-field range validators declared on `RiskModelConfig` via
`Field(..., ge=..., le=...)` (schemas.py:301-306): the only checks pydantic
runs at construction. -/
def riskModelConfigFieldsOk (c : RiskModelConfig) : Prop :=
  0 ≤ c.drainage_coefficient ∧ c.drainage_coefficient ≤ 1/100 ∧
  0 ≤ c.ponding_threshold_mm ∧ c.ponding_threshold_mm ≤ 500 ∧
  1 ≤ c.high_flow_accum_threshold ∧ c.high_flow_accum_threshold ≤ 100000 ∧
  0 ≤ c.elevation_weight ∧ c.elevation_weight ≤ 1 ∧
  0 ≤ c.flow_accum_weight ∧ c.flow_accum_weight ≤ 1 ∧
  0 ≤ c.rainfall_weight ∧ c.rainfall_weight ≤ 1

instance (c : RiskModelConfig) : Decidable (riskModelConfigFieldsOk c) := by
  unfold riskModelConfigFieldsOk; infer_instance

/-- Pydantic `BaseModel` construction of `RiskModelConfig`: it runs the
declared per-field validators and returns the instance.  `__post_init__` is a
stdlib-dataclass hook that pydantic `BaseModel` never invokes, so the
weight-sum check written in `RiskModelConfig.__post_init__`
(schemas.py:312-316) is dead code at construction time. -/
def constructRiskModelConfig (c : RiskModelConfig) : Except String RiskModelConfig :=
  if riskModelConfigFieldsOk c then .ok c else .error "ValidationError"

/-- The body of `RiskModelConfig.__post_init__` (schemas.py:312-316): the
weight-sum validation the code intends — `test_risk_parameters_validation`
(tests/test_risk.py:286-294) expects exactly this `ValueError` — but which is
never executed. -/
def weightSumOk (c : RiskModelConfig) : Prop :=
  |c.elevation_weight + c.flow_accum_weight + c.rainfall_weight - 1| ≤ 1/1000

/-- The failing input: all three weights 0.5, summing to 1.5. -/
def badConfig : RiskModelConfig :=
  { elevation_weight := 1/2, flow_accum_weight := 1/2, rainfall_weight := 1/2 }

/-- The same weights as a `RiskParameters` value (the dataclass admits it
unconditionally). -/
def badParams : RiskParameters :=
  { elevation_weight := 1/2, flow_accum_weight := 1/2, rainfall_weight := 1/2 }

/-- The cells of an array in raster (row-major) order. -/
def Array2.cells (a : Array2) : List Val :=
  (List.range a.height).flatMap fun r => (List.range a.width).map fun c => a.val r c

/-- The non-NaN cell values of an array. -/
def Array2.finiteCells (a : Array2) : List ℚ :=
  a.cells.filterMap id

/-- `np.nanmin`: minimum over non-NaN entries; NaN when every entry is NaN. -/
def nanmin (a : Array2) : Val :=
  match a.finiteCells with
  | [] => none
  | x :: xs => some (xs.foldr min x)

/-- `np.nanmax`: maximum over non-NaN entries; NaN when every entry is NaN. -/
def nanmax (a : Array2) : Val :=
  match a.finiteCells with
  | [] => none
  | x :: xs => some (xs.foldr max x)

/-- Elevation factor of `_compute_base_risk_factors` (risk.py:60-63):
`1 - (elevation - nanmin) / (nanmax - nanmin)`, elementwise.  NaN cells
propagate; a constant array makes the normalisation 0/0, i.e. NaN. -/
def elevation_risk (elev : Array2) (r c : ℕ) : Val :=
  vSub (some 1)
    (vDiv (vSub (elev.val r c) (nanmin elev)) (vSub (nanmax elev) (nanmin elev)))

/-- `np.log1p` applied elementwise (risk.py:66).  The transcendental
`log(1+x)` is represented by an abstract map `L : ℚ → ℚ` (assumed strictly
monotone where a claim needs it); the claims depend only on the normalisation
structure, never on the value of the logarithm. -/
def log1pArray (L : ℚ → ℚ) (a : Array2) : Array2 :=
  ⟨a.height, a.width, fun r c => (a.val r c).map L⟩

/-- Flow-accumulation factor of `_compute_base_risk_factors` (risk.py:65-69):
min-max-normalised `log1p(flow_accum)`. -/
def flow_accum_risk (L : ℚ → ℚ) (acc : Array2) (r c : ℕ) : Val :=
  vDiv (vSub ((log1pArray L acc).val r c) (nanmin (log1pArray L acc)))
    (vSub (nanmax (log1pArray L acc)) (nanmin (log1pArray L acc)))

/-- The 5×5 footprint around a cell, centre excluded
(risk.py:88-89: `kernel = np.ones((5,5)); kernel[2,2] = 0`). -/
def footprintOffsets : List (ℤ × ℤ) :=
  ((List.range 5).flatMap fun i => (List.range 5).map fun j =>
    ((i : ℤ) - 2, (j : ℤ) - 2)).filter fun p => p ≠ (0, 0)

/-- One cell of `ndimage.generic_filter(elevation, np.nanmean,
footprint=kernel, mode='constant', cval=np.nan)` (risk.py:92-94): the
NaN-aware mean over the 24-cell footprint, where out-of-grid positions
contribute the constant NaN and `nanmean` skips NaNs; NaN when no footprint
cell has data. -/
def neighborhood_mean (elev : Array2) (r c : ℕ) : Val :=
  let vals := footprintOffsets.filterMap fun p =>
    let r2 := (r : ℤ) + p.1
    let c2 := (c : ℤ) + p.2
    if 0 ≤ r2 ∧ r2 < (elev.height : ℤ) ∧ 0 ≤ c2 ∧ c2 < (elev.width : ℤ) then
      elev.val r2.toNat c2.toNat
    else none
  if vals.length = 0 then none else some (vals.sum / (vals.length : ℚ))

/-- `elevation_diff = neighborhood_mean - elevation` (risk.py:97). -/
def elevation_diff (elev : Array2) (r c : ℕ) : Val :=
  vSub (neighborhood_mean elev r c) (elev.val r c)

/-- The non-NaN entries of `elevation_diff` over the whole grid. -/
def finiteDiffs (elev : Array2) : List ℚ :=
  ((List.range elev.height).flatMap fun r =>
    (List.range elev.width).map fun c => elevation_diff elev r c).filterMap id

/-- The square of `np.nanstd(elevation_diff)` (ddof 0), i.e. the NaN-aware
variance `E[d²] - E[d]²`; 0 when no entry has data (numpy would give NaN
there, but that case never reaches a comparison because every
`elevation_diff` cell is then NaN and the mask is 0 regardless). -/
def diffVariance (elev : Array2) : ℚ :=
  let l := finiteDiffs elev
  if l.length = 0 then 0
  else (l.map fun d => d ^ 2).sum / (l.length : ℚ) - (l.sum / (l.length : ℚ)) ^ 2

/-- `_identify_depressions` (risk.py:78-101): cell `(r, c)` is a depression
when `elevation_diff > 0.5 * np.nanstd(elevation_diff)` (a NaN diff compares
False, matching the source's `& ~np.isnan(elevation_diff)`).  Over the reals,
`d > (1/2)·√v` with `v ≥ 0` is equivalent to `0 < d ∧ v < 4·d²`; the
embedding uses the squared form to stay inside ℚ.  Result 1 or 0
(`astype(np.uint8)`). -/
def depression_mask (elev : Array2) (r c : ℕ) : ℕ :=
  match elevation_diff elev r c with
  | none => 0
  | some d => if 0 < d ∧ diffVariance elev < 4 * d ^ 2 then 1 else 0

/-- An optional rainfall-override dictionary as accepted by
`assess_point_risk` / `compute_risk_grid` (risk.py:137-143, 216-222): each
key may be absent.  (An empty dict is falsy in Python and takes the same
branch as `None`; `some ⟨none, none⟩` resolves to the same defaults, so the
outcomes agree.) -/
structure RainfallDict where
  rainfall_mm_per_hour : Option ℚ := none
  duration_hours : Option ℚ := none

/-- Scenario resolution: the override dict's entries with the current
parameters as defaults. -/
def resolveScenario (params : RiskParameters) (d : Option RainfallDict) : ℚ × ℚ :=
  match d with
  | some rp => (rp.rainfall_mm_per_hour.getD params.rainfall_mm_per_hour,
      rp.duration_hours.getD params.duration_hours)
  | none => (params.rainfall_mm_per_hour, params.duration_hours)

/-- `RiskLevel` (risk.py:16-22). -/
inductive RiskLevel where
  | VERY_LOW
  | LOW
  | MODERATE
  | HIGH
  | VERY_HIGH
  deriving DecidableEq, Repr, Inhabited

/-- The `value` of a `RiskLevel` member (risk.py:18-22). -/
def RiskLevel.toNumeric : RiskLevel → ℕ
  | .VERY_LOW => 0
  | .LOW => 1
  | .MODERATE => 2
  | .HIGH => 3
  | .VERY_HIGH => 4

/-- The five-level classification of risk.py:174-183, boundaries at
0.2 / 0.4 / 0.6 / 0.8. -/
def classifyRisk (q : ℚ) : RiskLevel :=
  if q < 1/5 then .VERY_LOW
  else if q < 2/5 then .LOW
  else if q < 3/5 then .MODERATE
  else if q < 4/5 then .HIGH
  else .VERY_HIGH

/-- Classification of a possibly-NaN composite: a NaN comparison is False in
Python, so a NaN composite falls through all four `<` tests to `VERY_HIGH`. -/
def classifyRiskVal : Val → RiskLevel
  | some q => classifyRisk q
  | none => .VERY_HIGH

/-- Round to the nearest integer, ties to even (Python's `round`). -/
def roundHalfEven (q : ℚ) : ℤ :=
  if q - ⌊q⌋ < 1/2 then ⌊q⌋
  else if 1/2 < q - ⌊q⌋ then ⌊q⌋ + 1
  else if ⌊q⌋ % 2 = 0 then ⌊q⌋ else ⌊q⌋ + 1

/-- Python's `round(x, n)`, idealised over ℚ (Python rounds the binary
double; the embedding rounds the exact rational). -/
def pyRound (n : ℕ) (q : ℚ) : ℚ :=
  (roundHalfEven (q * 10 ^ n) : ℚ) / 10 ^ n

/-- Python's `int(x)`: truncation toward zero. -/
def pyInt (q : ℚ) : ℤ :=
  if 0 ≤ q then ⌊q⌋ else ⌈q⌉

/-- `round(·, n)` lifted to possibly-NaN values (`round(nan) = nan`). -/
def vRound (n : ℕ) : Val → Val
  | some q => some (pyRound n q)
  | none => none

/-- A loaded `Grid` (grid.py:18-36) together with its external coordinate
machinery.  `latlon_to_pixel` composes the pyproj reprojection with
`rasterio.transform.rowcol` (grid.py:115-131), both external collaborators;
`none` models the `ValueError`/`IndexError` they may raise.
`pixel_to_latlon` is the inverse composition (grid.py:133-152), assumed
configured.  `is_within_bounds_b` is `Grid.is_within_bounds`
(grid.py:313-329), whose geographic-bounds arithmetic again sits behind the
external transformer. -/
structure Grid where
  elevation : Array2
  flow_accum : Array2
  georef : GeorefRec
  latlon_to_pixel : ℚ → ℚ → Option (ℤ × ℤ)
  pixel_to_latlon : ℤ → ℤ → ℚ × ℚ
  is_within_bounds_b : ℚ → ℚ → Bool

/-- `Grid.get_elevation` (grid.py:154-172): lat/lon → integer pixel, then
bilinear interpolation of the elevation array; `None` on conversion or
sampling failure. -/
def get_elevation (g : Grid) (lat lon : ℚ) : Option ℚ :=
  (g.latlon_to_pixel lat lon).bind fun rc =>
    bilinear_interpolate g.elevation (rc.1 : ℚ) (rc.2 : ℚ)

/-- `Grid.get_flow_accumulation` (grid.py:174-192). -/
def get_flow_accumulation (g : Grid) (lat lon : ℚ) : Option ℚ :=
  (g.latlon_to_pixel lat lon).bind fun rc =>
    bilinear_interpolate g.flow_accum (rc.1 : ℚ) (rc.2 : ℚ)

/-- The state of a `FloodRiskAssessment` (risk.py:38-56, 74-76): grid,
current parameters, risk-grid cache.  The source keeps the cache as two
attributes `_cached_risk_grid` and `_cache_key`, always assigned together
(constructor and `invalidate_cache` set both to `None`,
`get_tiered_risk_areas` sets both); the paired option models the two fields
under that coupling.  The key string `f"risk_grid_{rate}_{duration}"`
renders the two floats injectively and is modelled by the (rate, duration)
pair itself.  The static factor arrays are precomputed at construction from
the immutable grid, so they are modelled by the pure functions
`elevation_risk`, `flow_accum_risk` and `depression_mask` of the grid. -/
structure FloodRiskAssessment where
  grid : Grid
  params : RiskParameters
  cache : Option ((ℚ × ℚ) × Array2) := none

/-- `FloodRiskAssessment.__init__` (risk.py:41-56): raises `ValueError`
unless the grid has both arrays loaded; array presence is the `load_data`
outcome, so construction from an unloaded grid (`none`) is the error path
and construction from a loaded grid always succeeds (the factor computation
raises nothing). -/
def initFloodRiskAssessment (g : Option Grid) (params : RiskParameters) :
    Option FloodRiskAssessment :=
  g.map fun grid => { grid := grid, params := params, cache := none }

/-- The rainfall block shared verbatim by `assess_point_risk`
(risk.py:145-148) and `compute_risk_grid` (risk.py:224-227):
`max(0, rate·duration - drainage_coefficient·duration·3600·1000)`. -/
def potentialDepth (params : RiskParameters) (rate dur : ℚ) : ℚ :=
  max 0 (rate * dur - params.drainage_coefficient * dur * 3600 * 1000)

/-- `rainfall_factor = min(1.0, potential_depth_mm /
ponding_threshold_mm)` (risk.py:161, 228).  Both operands are guaranteed
finite floats; the ℚ idealisation of the division assumes the documented
operating condition `ponding_threshold_mm > 0` (default 50). -/
def rainfallFactor (params : RiskParameters) (rate dur : ℚ) : ℚ :=
  min 1 (potentialDepth params rate dur / params.ponding_threshold_mm)

/-- The result dictionary of `assess_point_risk` (risk.py:185-204), with the
source's display rounding applied.  Fields that can inherit NaN from the
factor arrays are `Val`. -/
structure RiskAssessmentResult where
  lat : ℚ
  lon : ℚ
  elevation_m : ℚ
  flow_accumulation : ℤ
  risk_score : Val
  risk_level : RiskLevel
  risk_level_numeric : ℕ
  potential_depth_mm : ℚ
  is_depression_area : Bool
  factor_elevation_risk : Val
  factor_flow_accum_risk : Val
  factor_rainfall : ℚ
  scenario_rainfall_mm_per_hour : ℚ
  scenario_duration_hours : ℚ
  scenario_total_rainfall_mm : ℚ
  deriving DecidableEq

/-- Outcome of `assess_point_risk`: an error dictionary or a result. -/
inductive PointRisk where
  | error (msg : String)
  | ok (res : RiskAssessmentResult)
  deriving DecidableEq

/-- `FloodRiskAssessment.assess_point_risk` (risk.py:108-204). -/
def assess_point_risk (L : ℚ → ℚ) (m : FloodRiskAssessment) (lat lon : ℚ)
    (rainfall_params : Option RainfallDict) : PointRisk :=
  if ¬ m.grid.is_within_bounds_b lat lon then .error "Point outside grid bounds"
  else
    match m.grid.latlon_to_pixel lat lon with
    | none => .error "Unable to convert coordinates"
    | some (row, col) =>
      match get_elevation m.grid lat lon, get_flow_accumulation m.grid lat lon with
      | some elevation, some flow_accum =>
        let rd := resolveScenario m.params rainfall_params
        let depth := potentialDepth m.params rd.1 rd.2
        let factors :=
          if 0 ≤ row ∧ row < (m.grid.elevation.height : ℤ) ∧
              0 ≤ col ∧ col < (m.grid.elevation.width : ℤ) then
            (elevation_risk m.grid.elevation row.toNat col.toNat,
             flow_accum_risk L m.grid.flow_accum row.toNat col.toNat,
             decide (depression_mask m.grid.elevation row.toNat col.toNat ≠ 0))
          else (some (1/2), some (1/2), false)
        let rf := rainfallFactor m.params rd.1 rd.2
        let base := vAdd (vAdd (vMul (some m.params.elevation_weight) factors.1)
            (vMul (some m.params.flow_accum_weight) factors.2.1))
          (vMul (some m.params.rainfall_weight) (some rf))
        let composite := if factors.2.2 = true then pyMinOne (vMul base (some (6/5))) else base
        .ok { lat := lat, lon := lon
              elevation_m := pyRound 2 elevation
              flow_accumulation := pyInt flow_accum
              risk_score := vRound 3 composite
              risk_level := classifyRiskVal composite
              risk_level_numeric := (classifyRiskVal composite).toNumeric
              potential_depth_mm := pyRound 1 depth
              is_depression_area := factors.2.2
              factor_elevation_risk := vRound 3 factors.1
              factor_flow_accum_risk := vRound 3 factors.2.1
              factor_rainfall := pyRound 3 rf
              scenario_rainfall_mm_per_hour := rd.1
              scenario_duration_hours := rd.2
              scenario_total_rainfall_mm := pyRound 1 (rd.1 * rd.2) }
      | _, _ => .error "No data available at this location"

/-- `FloodRiskAssessment.compute_risk_grid` (risk.py:206-241): the same
rainfall block, then the elementwise weighted sum over the precomputed
factor arrays, then the additive depression bonus
`np.minimum(1.0, composite + 0.2 * depression_mask)`. -/
def compute_risk_grid (L : ℚ → ℚ) (m : FloodRiskAssessment)
    (rainfall_params : Option RainfallDict) : Array2 :=
  let rd := resolveScenario m.params rainfall_params
  let rf := rainfallFactor m.params rd.1 rd.2
  ⟨m.grid.elevation.height, m.grid.elevation.width, fun r c =>
    vMinOne (vAdd
      (vAdd (vAdd (vMul (some m.params.elevation_weight) (elevation_risk m.grid.elevation r c))
          (vMul (some m.params.flow_accum_weight) (flow_accum_risk L m.grid.flow_accum r c)))
        (vMul (some m.params.rainfall_weight) (some rf)))
      (some ((depression_mask m.grid.elevation r c : ℚ) * (1/5))))⟩

/-- `invalidate_cache` (risk.py:103-106). -/
def invalidate_cache (m : FloodRiskAssessment) : FloodRiskAssessment :=
  { m with cache := none }

/-- The cache key `f"risk_grid_{rate}_{duration}"` of the current parameters
(risk.py:311), as the (rate, duration) pair it renders. -/
def cacheKeyOf (params : RiskParameters) : ℚ × ℚ :=
  (params.rainfall_mm_per_hour, params.duration_hours)

/-- The cache-miss path of `get_tiered_risk_areas` (risk.py:316-323):
recompute `compute_risk_grid` with the current scenario passed explicitly
and store it under the current key. -/
def recompute_and_cache (L : ℚ → ℚ) (m : FloodRiskAssessment) :
    Array2 × FloodRiskAssessment :=
  let rp : RainfallDict :=
    { rainfall_mm_per_hour := some m.params.rainfall_mm_per_hour,
      duration_hours := some m.params.duration_hours }
  let g := compute_risk_grid L m (some rp)
  (g, { m with cache := some (cacheKeyOf m.params, g) })

/-- The cache lookup of `get_tiered_risk_areas` (risk.py:310-323): reuse the
cached grid exactly when the stored key equals the current key, otherwise
recompute and store. -/
def risk_grid_for_tiered (L : ℚ → ℚ) (m : FloodRiskAssessment) :
    Array2 × FloodRiskAssessment :=
  match m.cache with
  | some kg => if kg.1 = cacheKeyOf m.params then (kg.2, m) else recompute_and_cache L m
  | none => recompute_and_cache L m

/-- The parameter mutation performed by the API layer before re-querying
(app.py:359): replace `rainfall_mm_per_hour` in place. -/
def set_rainfall_mm_per_hour (m : FloodRiskAssessment) (v : ℚ) : FloodRiskAssessment :=
  { m with params := { m.params with rainfall_mm_per_hour := v } }

/-- The matching mutation of `duration_hours` (app.py:360). -/
def set_duration_hours (m : FloodRiskAssessment) (v : ℚ) : FloodRiskAssessment :=
  { m with params := { m.params with duration_hours := v } }

/-- Pixel positions of an `h × w` grid in raster order. -/
def gridPositions (h w : ℕ) : List (ℕ × ℕ) :=
  (List.range h).flatMap fun r => (List.range w).map fun c => (r, c)

/-- One sweep of minimum-label propagation for 4-connected labelling of
`mask` on an `h × w` grid; labels live in a flat row-major list, unmasked
pixels carry 0. -/
def ccStep (mask : ℕ → ℕ → Bool) (h w : ℕ) (labels : List ℕ) : List ℕ :=
  (List.range (h * w)).map fun i =>
    let r := i / w
    let c := i % w
    if mask r c then
      (((if 0 < r ∧ mask (r - 1) c then [labels.getD ((r - 1) * w + c) 0] else []) ++
        (if r + 1 < h ∧ mask (r + 1) c then [labels.getD ((r + 1) * w + c) 0] else []) ++
        (if 0 < c ∧ mask r (c - 1) then [labels.getD (r * w + (c - 1)) 0] else []) ++
        (if c + 1 < w ∧ mask r (c + 1) then [labels.getD (r * w + (c + 1)) 0] else []))).foldr
        min (labels.getD i 0)
    else 0

/-- Initial labelling: each masked pixel gets its raster index plus 1. -/
def ccInit (mask : ℕ → ℕ → Bool) (h w : ℕ) : List ℕ :=
  (List.range (h * w)).map fun i => if mask (i / w) (i % w) then i + 1 else 0

/-- 4-connected component labelling of `mask` (the default structuring
element of `scipy.ndimage.label`, risk.py:345-346): `h·w` sweeps of
minimum-label propagation reach the fixed point where every masked pixel
carries the smallest initial label of its component.  The partition into
components and their first-occurrence order agree with `ndimage.label`; only
the numeric label values differ (here `min raster index + 1` instead of
consecutive integers), which is immaterial because the source uses labels
only as identifiers. -/
def ccLabels (mask : ℕ → ℕ → Bool) (h w : ℕ) : List ℕ :=
  (ccStep mask h w)^[h * w] (ccInit mask h w)

/-- The distinct component labels in ascending order (the source's
`for area_id in range(1, num_areas + 1)` enumeration). -/
def componentIds (labels : List ℕ) : List ℕ :=
  ((List.range labels.length).map (· + 1)).filter fun id => labels.contains id

/-- `np.sum(labeled_areas == area_id)` (risk.py:352): the number of raster
positions carrying the label. -/
def componentSize (labels : List ℕ) (id : ℕ) : ℕ :=
  ((List.range labels.length).filter fun i => labels.getD i 0 = id).length

/-- `np.where(area_mask)`: the pixel positions of a component, raster
order. -/
def componentPixels (labels : List ℕ) (w id : ℕ) : List (ℕ × ℕ) :=
  ((List.range labels.length).filter fun i => labels.getD i 0 = id).map fun i => (i / w, i % w)

/-- `float(np.mean(xs))`: NaN-propagating mean (NaN also for an empty list,
which no caller produces). -/
def listMean (xs : List Val) : Val :=
  if xs.contains none ∨ xs.length = 0 then none
  else some ((xs.filterMap id).sum / (xs.length : ℚ))

/-- `float(np.max(xs))`: NaN-propagating maximum. -/
def listMax (xs : List Val) : Val :=
  if xs.contains none then none
  else match xs.filterMap id with
  | [] => none
  | x :: t => some (t.foldr max x)

/-- `float(np.min(xs))`: NaN-propagating minimum. -/
def listMin (xs : List Val) : Val :=
  if xs.contains none then none
  else match xs.filterMap id with
  | [] => none
  | x :: t => some (t.foldr min x)

/-- One area record of `get_tiered_risk_areas` (risk.py:373-389); the
source's `area_id` string `f"{tier}_{id}"` is kept as the (tier, id) pair. -/
structure TieredArea where
  tier : String
  area_id : ℕ
  pixel_count : ℕ
  area_approx_m2 : ℚ
  centroid_lat : ℚ
  centroid_lon : ℚ
  mean_risk : Val
  max_risk : Val
  min_risk : Val
  mean_elevation : Val
  min_elevation : Val
  max_elevation : Val
  deriving DecidableEq, Inhabited

/-- Building one area record (risk.py:361-390). -/
def mkTieredArea (g : Grid) (risk : Array2) (tier : String) (labels : List ℕ)
    (id : ℕ) : TieredArea :=
  let pix := componentPixels labels g.elevation.width id
  let risks := pix.map fun p => risk.val p.1 p.2
  let elevs := pix.map fun p => g.elevation.val p.1 p.2
  let crow := pyInt ((pix.map fun p => (p.1 : ℚ)).sum / (pix.length : ℚ))
  let ccol := pyInt ((pix.map fun p => (p.2 : ℚ)).sum / (pix.length : ℚ))
  let ll := g.pixel_to_latlon crow ccol
  { tier := tier
    area_id := id
    pixel_count := pix.length
    area_approx_m2 := (pix.length : ℚ) * g.georef.pixel_size_x ^ 2
    centroid_lat := ll.1
    centroid_lon := ll.2
    mean_risk := listMean risks
    max_risk := listMax risks
    min_risk := listMin risks
    mean_elevation := listMean elevs
    min_elevation := listMin elevs
    max_elevation := listMax elevs }

/-- Sort key for possibly-NaN floats: components of a NaN-free risk grid
always have finite means, and Python's sort is unspecified on NaN keys, so
`none` is keyed arbitrarily as 0. -/
def vKey (v : Val) : ℚ :=
  v.getD 0

/-- Insert `x` before the first element `y` with `le x y = true`. -/
def insertByKey {α : Type} (le : α → α → Bool) (x : α) : List α → List α
  | [] => [x]
  | y :: ys => if le x y then x :: y :: ys else y :: insertByKey le x ys

/-- Insertion sort with `le a b = (key b ≤ key a)`: reproduces Python's
stable `list.sort(key=…, reverse=True)` — descending keys, original order
among equal keys. -/
def sortByKey {α : Type} (le : α → α → Bool) : List α → List α
  | [] => []
  | x :: xs => insertByKey le x (sortByKey le xs)

/-- One tier's mask (risk.py:334-337): `min ≤ risk < max`, except the
very-high tier which keeps `risk ≥ min` only (to include 1.0).  A NaN risk
value compares False in numpy and belongs to no tier. -/
def tierMask (risk : Array2) (lo hi : ℚ) (isTop : Bool) (r c : ℕ) : Bool :=
  match risk.val r c with
  | none => false
  | some q => if isTop then decide (lo ≤ q) else decide (lo ≤ q ∧ q < hi)

/-- `np.any(tier_mask)` (risk.py:340). -/
def maskAny (mask : ℕ → ℕ → Bool) (h w : ℕ) : Bool :=
  (gridPositions h w).any fun p => mask p.1 p.2

/-- The per-tier pipeline of `get_tiered_risk_areas` (risk.py:334-394):
skip an empty mask entirely; label connected components; keep components of
at least 5 pixels; sort candidates by pixel count descending and keep at
most `2·max_areas_per_tier`; build the area records; sort them by mean risk
descending; truncate to `max_areas_per_tier`. -/
def process_tier (g : Grid) (risk : Array2) (tier : String) (lo hi : ℚ)
    (isTop : Bool) (max_areas_per_tier : ℕ) : List TieredArea :=
  let mask := tierMask risk lo hi isTop
  if ¬ maskAny mask risk.height risk.width then []
  else
    let labels := ccLabels mask risk.height risk.width
    let sizes := ((componentIds labels).map fun id => (id, componentSize labels id)).filter
      fun p => 5 ≤ p.2
    let kept := (sortByKey (fun a b => decide (b.2 ≤ a.2)) sizes).take (max_areas_per_tier * 2)
    let areas := kept.map fun p => mkTieredArea g risk tier labels p.1
    (sortByKey (fun a b => decide (vKey b.mean_risk ≤ vKey a.mean_risk)) areas).take
      max_areas_per_tier

/-- The four tier lists returned by `get_tiered_risk_areas`
(risk.py:397-402). -/
structure TieredAreas where
  very_high : List TieredArea
  high : List TieredArea
  moderate : List TieredArea
  low : List TieredArea
  deriving DecidableEq, Inhabited

/-- `FloodRiskAssessment.get_tiered_risk_areas` (risk.py:299-402): cached
risk grid, then the four tier pipelines with thresholds
very_high [0.8, ∞), high [0.6, 0.8), moderate [0.4, 0.6), low [0.2, 0.4). -/
def get_tiered_risk_areas (L : ℚ → ℚ) (m : FloodRiskAssessment)
    (max_areas_per_tier : ℕ) : TieredAreas × FloodRiskAssessment :=
  let rg := risk_grid_for_tiered L m
  ({ very_high := process_tier m.grid rg.1 "very_high" (4/5) 1 true max_areas_per_tier
     high := process_tier m.grid rg.1 "high" (3/5) (4/5) false max_areas_per_tier
     moderate := process_tier m.grid rg.1 "moderate" (2/5) (3/5) false max_areas_per_tier
     low := process_tier m.grid rg.1 "low" (1/5) (2/5) false max_areas_per_tier }, rg.2)

/-- A constant grid (elevation all 5, flow accumulation all 3): the C10
failing input. -/
def c10Grid : Grid :=
  { elevation := ⟨2, 2, fun _ _ => some 5⟩
    flow_accum := ⟨2, 2, fun _ _ => some 3⟩
    georef := g0
    latlon_to_pixel := fun _ _ => some (0, 0)
    pixel_to_latlon := fun r c => ((r : ℚ), (c : ℚ))
    is_within_bounds_b := fun _ _ => true }

/-- A 2×2 non-constant array with values 0, 1, 2, 3 in raster order. -/
def w9Arr : Array2 :=
  ⟨2, 2, fun r c => some ((2 * r + c : ℕ) : ℚ)⟩

/-- A small witness grid built from `w9Arr`. -/
def w9Grid : Grid :=
  { elevation := w9Arr
    flow_accum := w9Arr
    georef := g0
    latlon_to_pixel := fun _ _ => some (0, 0)
    pixel_to_latlon := fun r c => ((r : ℚ), (c : ℚ))
    is_within_bounds_b := fun _ _ => true }

/-- A risk model over `w9Grid` with the default parameters. -/
def m9 : FloodRiskAssessment :=
  { grid := w9Grid, params := {}, cache := none }

/-- The risk model of the C4/C5 witnesses: grid `w9Grid`, rainfall 100 mm/h
for 1 h, weights (0, 0, 1). -/
def m4 : FloodRiskAssessment :=
  { grid := w9Grid
    params := { rainfall_mm_per_hour := 100, duration_hours := 1,
                elevation_weight := 0, flow_accum_weight := 0, rainfall_weight := 1 }
    cache := none }

/-- The cache-coherence invariant of claim C7: whenever the cache holds a
grid, that grid equals `compute_risk_grid` evaluated at the scenario encoded
in its key (with the current non-scenario parameters). -/
def cache_coherent (L : ℚ → ℚ) (m : FloodRiskAssessment) : Prop :=
  ∀ k g, m.cache = some (k, g) →
    g = compute_risk_grid L
      { m with params :=
          { m.params with
              rainfall_mm_per_hour := k.1
              duration_hours := k.2 } }
      (some ⟨some k.1, some k.2⟩)

/-- A 1×5 risk surface of constant value 1, used as a pre-computed cached
grid in the C6/C7 witnesses. -/
def riskX : Array2 :=
  ⟨1, 5, fun _ _ => some 1⟩

/-- A 1×5 witness grid. -/
def grid7 : Grid :=
  { elevation := ⟨1, 5, fun _ c => some (c : ℚ)⟩
    flow_accum := ⟨1, 5, fun _ c => some (c : ℚ)⟩
    georef := g0
    latlon_to_pixel := fun _ _ => some (0, 0)
    pixel_to_latlon := fun r c => ((r : ℚ), (c : ℚ))
    is_within_bounds_b := fun _ _ => true }

/-- A model whose cache already holds `riskX` under the key of its current
parameters (rate 25, duration 1). -/
def m7 : FloodRiskAssessment :=
  { grid := grid7, params := {}, cache := some ((25, 1), riskX) }

/-- Lower bound of a `foldr min` by its initial value. -/
theorem foldr_min_le_init (x : ℚ) (xs : List ℚ) : xs.foldr min x ≤ x := by
  induction xs with
  | nil => exact le_refl x
  | cons y ys ih => exact le_trans (min_le_right y (ys.foldr min x)) ih

/-- Lower bound of a `foldr min` by any list element. -/
theorem foldr_min_le_mem (x v : ℚ) (xs : List ℚ) (h : v ∈ xs) : xs.foldr min x ≤ v := by
  induction xs with
  | nil => cases h
  | cons y ys ih =>
    rcases List.mem_cons.1 h with rfl | hv
    · exact min_le_left v (ys.foldr min x)
    · exact le_trans (min_le_right y (ys.foldr min x)) (ih hv)

/-- Upper bound of a `foldr max` by its initial value. -/
theorem init_le_foldr_max (x : ℚ) (xs : List ℚ) : x ≤ xs.foldr max x := by
  induction xs with
  | nil => exact le_refl x
  | cons y ys ih => exact le_trans ih (le_max_right y (ys.foldr max x))

/-- Upper bound of a `foldr max` by any list element. -/
theorem mem_le_foldr_max (x v : ℚ) (xs : List ℚ) (h : v ∈ xs) : v ≤ xs.foldr max x := by
  induction xs with
  | nil => cases h
  | cons y ys ih =>
    rcases List.mem_cons.1 h with rfl | hv
    · exact le_max_left v (ys.foldr max x)
    · exact le_trans (ih hv) (le_max_right y (ys.foldr max x))

/-- A `foldr min` over a list of copies of `e` starting from `e` is `e`. -/
theorem foldr_min_all_eq (e : ℚ) (xs : List ℚ) (hxs : ∀ v ∈ xs, v = e) :
    xs.foldr min e = e := by
  induction xs with
  | nil => rfl
  | cons y ys ih =>
    have hy : y = e := hxs y (List.mem_cons_self y ys)
    have ih' := ih fun v hv => hxs v (List.mem_cons_of_mem y hv)
    simp [hy, ih']

/-- A `foldr max` over a list of copies of `e` starting from `e` is `e`. -/
theorem foldr_max_all_eq (e : ℚ) (xs : List ℚ) (hxs : ∀ v ∈ xs, v = e) :
    xs.foldr max e = e := by
  induction xs with
  | nil => rfl
  | cons y ys ih =>
    have hy : y = e := hxs y (List.mem_cons_self y ys)
    have ih' := ih fun v hv => hxs v (List.mem_cons_of_mem y hv)
    simp [hy, ih']

/-- Membership characterisation of the non-NaN cell values of an array. -/
theorem mem_finiteCells_iff (a : Array2) (q : ℚ) :
    q ∈ a.finiteCells ↔ ∃ r c, r < a.height ∧ c < a.width ∧ a.val r c = some q := by
  unfold Array2.finiteCells Array2.cells
  simp only [List.mem_filterMap, List.mem_flatMap, List.mem_map, List.mem_range, id_eq]
  constructor
  · rintro ⟨v, ⟨r, hr, c, hc, rfl⟩, hv⟩
    exact ⟨r, c, hr, hc, hv⟩
  · rintro ⟨r, c, hr, hc, hv⟩
    exact ⟨some q, ⟨r, hr, c, hc, hv⟩, rfl⟩

/-- `nanmin` is a lower bound of every non-NaN cell value. -/
theorem nanmin_le (a : Array2) (mn q : ℚ) (hmn : nanmin a = some mn)
    (hq : q ∈ a.finiteCells) : mn ≤ q := by
  unfold nanmin at hmn
  rcases hl : a.finiteCells with _ | ⟨x, xs⟩
  · rw [hl] at hmn; cases hmn
  · rw [hl] at hmn
    injection hmn with h
    subst h
    rw [hl] at hq
    rcases List.mem_cons.1 hq with rfl | hmem
    · exact foldr_min_le_init q xs
    · exact foldr_min_le_mem x q xs hmem

/-- `nanmax` is an upper bound of every non-NaN cell value. -/
theorem le_nanmax (a : Array2) (mx q : ℚ) (hmx : nanmax a = some mx)
    (hq : q ∈ a.finiteCells) : q ≤ mx := by
  unfold nanmax at hmx
  rcases hl : a.finiteCells with _ | ⟨x, xs⟩
  · rw [hl] at hmx; cases hmx
  · rw [hl] at hmx
    injection hmx with h
    subst h
    rw [hl] at hq
    rcases List.mem_cons.1 hq with rfl | hmem
    · exact init_le_foldr_max q xs
    · exact mem_le_foldr_max x q xs hmem

/-- On an array whose cells inside the shape all hold the same value `e`,
`nanmin` and `nanmax` are both `e`. -/
theorem nanmin_nanmax_const (a : Array2) (e : ℚ) (hh : 0 < a.height) (hw : 0 < a.width)
    (hconst : ∀ r c, r < a.height → c < a.width → a.val r c = some e) :
    nanmin a = some e ∧ nanmax a = some e := by
  have hmem : e ∈ a.finiteCells :=
    (mem_finiteCells_iff a e).2 ⟨0, 0, hh, hw, hconst 0 0 hh hw⟩
  have hall : ∀ q ∈ a.finiteCells, q = e := by
    intro q hq
    obtain ⟨r, c, hr, hc, hv⟩ := (mem_finiteCells_iff a q).1 hq
    have h2 := hconst r c hr hc
    rw [hv] at h2
    exact Option.some.inj h2
  rcases hl : a.finiteCells with _ | ⟨x, xs⟩
  · rw [hl] at hmem; cases hmem
  · have hx : x = e := hall x (hl ▸ List.mem_cons_self x xs)
    have hxs : ∀ v ∈ xs, v = e := fun v hv => hall v (hl ▸ List.mem_cons_of_mem x hv)
    constructor
    · unfold nanmin
      rw [hl]
      show some (List.foldr min x xs) = some e
      rw [hx, foldr_min_all_eq e xs hxs]
    · unfold nanmax
      rw [hl]
      show some (List.foldr max x xs) = some e
      rw [hx, foldr_max_all_eq e xs hxs]

/-- `depression_mask` only produces 0 or 1. -/
theorem depression_mask_binary (elev : Array2) (r c : ℕ) :
    depression_mask elev r c = 0 ∨ depression_mask elev r c = 1 := by
  unfold depression_mask
  rcases elevation_diff elev r c with _ | d
  · exact Or.inl rfl
  · by_cases h : 0 < d ∧ diffVariance elev < 4 * d ^ 2
    · exact Or.inr (if_pos h)
    · exact Or.inl (if_neg h)

/-- The five classification bands of `classifyRisk`. -/
theorem classifyRisk_spec (q : ℚ) :
    (classifyRisk q = .VERY_LOW ↔ q < 1/5) ∧
    (classifyRisk q = .LOW ↔ 1/5 ≤ q ∧ q < 2/5) ∧
    (classifyRisk q = .MODERATE ↔ 2/5 ≤ q ∧ q < 3/5) ∧
    (classifyRisk q = .HIGH ↔ 3/5 ≤ q ∧ q < 4/5) ∧
    (classifyRisk q = .VERY_HIGH ↔ 4/5 ≤ q) := by
  unfold classifyRisk
  split_ifs with h1 h2 h3 h4
  · exact ⟨iff_of_true rfl h1,
      iff_of_false (by simp) (fun hx => by linarith [hx.1]),
      iff_of_false (by simp) (fun hx => by linarith [hx.1]),
      iff_of_false (by simp) (fun hx => by linarith [hx.1]),
      iff_of_false (by simp) (fun hx => by linarith)⟩
  · exact ⟨iff_of_false (by simp) (fun hx => h1 hx),
      iff_of_true rfl ⟨not_lt.1 h1, h2⟩,
      iff_of_false (by simp) (fun hx => by linarith [hx.1]),
      iff_of_false (by simp) (fun hx => by linarith [hx.1]),
      iff_of_false (by simp) (fun hx => by linarith)⟩
  · exact ⟨iff_of_false (by simp) (fun hx => h1 hx),
      iff_of_false (by simp) (fun hx => h2 hx.2),
      iff_of_true rfl ⟨not_lt.1 h2, h3⟩,
      iff_of_false (by simp) (fun hx => by linarith [hx.1]),
      iff_of_false (by simp) (fun hx => by linarith)⟩
  · exact ⟨iff_of_false (by simp) (fun hx => h1 hx),
      iff_of_false (by simp) (fun hx => h2 hx.2),
      iff_of_false (by simp) (fun hx => h3 hx.2),
      iff_of_true rfl ⟨not_lt.1 h3, h4⟩,
      iff_of_false (by simp) (fun hx => by linarith)⟩
  · exact ⟨iff_of_false (by simp) (fun hx => h1 hx),
      iff_of_false (by simp) (fun hx => h2 hx.2),
      iff_of_false (by simp) (fun hx => h3 hx.2),
      iff_of_false (by simp) (fun hx => h4 hx.2),
      iff_of_true rfl (not_lt.1 h4)⟩

/-- Membership is preserved by `insertByKey`. -/
theorem mem_insertByKey {α : Type} (le : α → α → Bool) (x a : α) (l : List α) :
    a ∈ insertByKey le x l ↔ a = x ∨ a ∈ l := by
  induction l with
  | nil => simp [insertByKey]
  | cons y ys ih =>
    unfold insertByKey
    by_cases h : le x y = true
    · simp [h, List.mem_cons]
    · simp only [if_neg h, List.mem_cons, ih]
      tauto

/-- Membership is preserved by `sortByKey`. -/
theorem mem_sortByKey {α : Type} (le : α → α → Bool) (a : α) (l : List α) :
    a ∈ sortByKey le l ↔ a ∈ l := by
  induction l with
  | nil => simp [sortByKey]
  | cons y ys ih =>
    unfold sortByKey
    rw [mem_insertByKey, ih, List.mem_cons]

/-- C2 (counterexample): at the exact integer coordinate `(1, 0)` of a 2×2
array whose cells all hold the non-NaN value 7, the last-row case the claim
singles out, `_bilinear_interpolate` returns `None` (the bounds check rejects
`row ≥ height - 1`), not the stored cell value. -/
theorem c2_last_row_counterexample :
    c2Grid.val 1 0 = some 7 ∧ bilinear_interpolate c2Grid 1 0 = none := by
  constructor
  · rfl
  · unfold bilinear_interpolate
    rw [if_pos]
    right; left
    show (2 : ℚ) - 1 ≤ 1
    norm_num

/-- C2 (amended): at an exact integer coordinate `(r, c)` with
`r ≤ height - 2`, `c ≤ width - 2` and all four values of the 2×2
neighbourhood at `(r, c)` non-NaN, `_bilinear_interpolate` returns exactly the
stored cell value `array[r, c]`. -/
theorem c2_integer_coordinate_exact (a : Array2) (r c : ℕ) (v00 v01 v10 v11 : ℚ)
    (hr : r + 1 < a.height) (hc : c + 1 < a.width)
    (h00 : a.val r c = some v00) (h01 : a.val r (c + 1) = some v01)
    (h10 : a.val (r + 1) c = some v10) (h11 : a.val (r + 1) (c + 1) = some v11) :
    bilinear_interpolate a (r : ℚ) (c : ℚ) = some v00 := by
  unfold bilinear_interpolate
  rw [if_neg]
  · have hfr : (⌊(r : ℚ)⌋).toNat = r := by
      rw [Int.floor_natCast]; exact Int.toNat_natCast r
    have hfc : (⌊(c : ℚ)⌋).toNat = c := by
      rw [Int.floor_natCast]; exact Int.toNat_natCast c
    rw [hfr, hfc, h00, h01, h10, h11]
    norm_num
  · push_neg
    refine ⟨by positivity, ?_, by positivity, ?_⟩
    · have : (r : ℚ) + 1 < (a.height : ℚ) := by exact_mod_cast hr
      linarith
    · have : (c : ℚ) + 1 < (a.width : ℚ) := by exact_mod_cast hc
      linarith

/-- Witness for `c2_integer_coordinate_exact` at the 2×2 grid of 7s, pixel
`(0, 0)`. -/
theorem c2_integer_coordinate_exact_witness :
    bilinear_interpolate c2Grid (0 : ℕ) (0 : ℕ) = some 7 :=
  c2_integer_coordinate_exact c2Grid 0 0 7 7 7 7 (by norm_num [c2Grid])
    (by norm_num [c2Grid]) rfl rfl rfl rfl

/-- C8 (counterexample): on the 3×3 all-zero grid at `(row, col) = (3/2, 0)`
the coordinate violates the claim's bound `row ≤ height - 2` (`3/2 > 1`), so
the claim predicts "unavailable"; the code's actual bound is
`row < height - 1`, and it returns the interpolated value `0`. -/
theorem c8_fractional_edge_counterexample :
    ¬ ((3 : ℚ)/2 ≤ (c8Grid.height : ℚ) - 2) ∧
      bilinear_interpolate c8Grid ((3 : ℚ)/2) 0 = some 0 := by
  constructor
  · show ¬ ((3 : ℚ)/2 ≤ (3 : ℚ) - 2)
    norm_num
  · have hf : ⌊(3 : ℚ)/2⌋ = 1 := by
      rw [Int.floor_eq_iff]
      norm_num
    unfold bilinear_interpolate
    rw [if_neg]
    · rw [hf]
      show some _ = some 0
      norm_num [c8Grid]
    · push_neg
      refine ⟨by norm_num, ?_, by norm_num, ?_⟩
      · show (3 : ℚ)/2 < ((3 : ℕ) : ℚ) - 1
        norm_num
      · show (0 : ℚ) < ((3 : ℕ) : ℚ) - 1
        norm_num

/-- C8 (amended): `_bilinear_interpolate` returns "unavailable" (`none`)
exactly when the coordinate violates `0 ≤ row < height - 1` and
`0 ≤ col < width - 1`, or when any of the four values of the 2×2
neighbourhood at `(⌊row⌋, ⌊col⌋)` is NaN; in every other case it returns the
full bilinear interpolation
`(1-dr)·[(1-dc)·v00 + dc·v01] + dr·[(1-dc)·v10 + dc·v11]` — never a partial
average over fewer than four values. -/
theorem c8_unavailable_characterisation (a : Array2) (row col : ℚ) :
    (bilinear_interpolate a row col = none ↔
      ((row < 0 ∨ (a.height : ℚ) - 1 ≤ row ∨ col < 0 ∨ (a.width : ℚ) - 1 ≤ col) ∨
        a.val (⌊row⌋).toNat (⌊col⌋).toNat = none ∨
        a.val (⌊row⌋).toNat ((⌊col⌋).toNat + 1) = none ∨
        a.val ((⌊row⌋).toNat + 1) (⌊col⌋).toNat = none ∨
        a.val ((⌊row⌋).toNat + 1) ((⌊col⌋).toNat + 1) = none)) ∧
    ∀ v00 v01 v10 v11 : ℚ,
      ¬(row < 0 ∨ (a.height : ℚ) - 1 ≤ row ∨ col < 0 ∨ (a.width : ℚ) - 1 ≤ col) →
      a.val (⌊row⌋).toNat (⌊col⌋).toNat = some v00 →
      a.val (⌊row⌋).toNat ((⌊col⌋).toNat + 1) = some v01 →
      a.val ((⌊row⌋).toNat + 1) (⌊col⌋).toNat = some v10 →
      a.val ((⌊row⌋).toNat + 1) ((⌊col⌋).toNat + 1) = some v11 →
      bilinear_interpolate a row col =
        some ((1 - (row - ((⌊row⌋).toNat : ℚ))) *
                ((1 - (col - ((⌊col⌋).toNat : ℚ))) * v00 + (col - ((⌊col⌋).toNat : ℚ)) * v01)
              + (row - ((⌊row⌋).toNat : ℚ)) *
                ((1 - (col - ((⌊col⌋).toNat : ℚ))) * v10 + (col - ((⌊col⌋).toNat : ℚ)) * v11)) := by
  constructor
  · by_cases hb : row < 0 ∨ (a.height : ℚ) - 1 ≤ row ∨ col < 0 ∨ (a.width : ℚ) - 1 ≤ col
    · rw [bilinear_interpolate, if_pos hb]
      exact iff_of_true rfl (Or.inl hb)
    · rw [bilinear_interpolate, if_neg hb]
      rcases h00 : a.val (⌊row⌋).toNat (⌊col⌋).toNat with _ | v00 <;>
        rcases h01 : a.val (⌊row⌋).toNat ((⌊col⌋).toNat + 1) with _ | v01 <;>
          rcases h10 : a.val ((⌊row⌋).toNat + 1) (⌊col⌋).toNat with _ | v10 <;>
            rcases h11 : a.val ((⌊row⌋).toNat + 1) ((⌊col⌋).toNat + 1) with _ | v11 <;>
              simp [hb, h00, h01, h10, h11]
      push_neg at hb
      obtain ⟨h1, h2, h3, h4⟩ := hb
      refine ⟨h1, by linarith, h3, by linarith⟩
  · intro v00 v01 v10 v11 hb h00 h01 h10 h11
    rw [bilinear_interpolate, if_neg hb, h00, h01, h10, h11]
    simp only [Option.some.injEq]
    ring

/-- Witness for `c8_unavailable_characterisation`: at `(1/2, 1/2)` on the 3×3
zero grid the in-bounds all-non-NaN branch applies and yields the
interpolated value. -/
theorem c8_unavailable_characterisation_witness :
    bilinear_interpolate c8Grid ((1 : ℚ)/2) ((1 : ℚ)/2) =
      some ((1 - ((1 : ℚ)/2 - ((⌊(1 : ℚ)/2⌋).toNat : ℚ))) *
              ((1 - ((1 : ℚ)/2 - ((⌊(1 : ℚ)/2⌋).toNat : ℚ))) * 0 +
                ((1 : ℚ)/2 - ((⌊(1 : ℚ)/2⌋).toNat : ℚ)) * 0)
            + ((1 : ℚ)/2 - ((⌊(1 : ℚ)/2⌋).toNat : ℚ)) *
              ((1 - ((1 : ℚ)/2 - ((⌊(1 : ℚ)/2⌋).toNat : ℚ))) * 0 +
                ((1 : ℚ)/2 - ((⌊(1 : ℚ)/2⌋).toNat : ℚ)) * 0)) :=
  (c8_unavailable_characterisation c8Grid ((1 : ℚ)/2) ((1 : ℚ)/2)).2 0 0 0 0
    (by
      push_neg
      refine ⟨by norm_num, ?_, by norm_num, ?_⟩ <;>
        · show (1 : ℚ)/2 < ((3 : ℕ) : ℚ) - 1
          norm_num)
    rfl rfl rfl rfl

/-- C3 (counterexample): with all three files present but the elevation array
1×1 and the flow-accumulation array 2×2, `load_data` succeeds — the claimed
failure on shape mismatch does not exist in the code (no shape comparison is
performed). -/
theorem c3_shape_mismatch_counterexample :
    load_data c3Dir = some (⟨1, 1, fun _ _ => some 0⟩, ⟨2, 2, fun _ _ => some 0⟩, g0) ∧
      (⟨1, 1, fun _ _ => some 0⟩ : Array2).height ≠ (⟨2, 2, fun _ _ => some 0⟩ : Array2).height := by
  exact ⟨rfl, by decide⟩

/-- C3 (amended): `load_data` fails exactly when one of the three input files
(elevation array, flow-accumulation array, georeference record) is missing;
when all three are present it succeeds and loads them unchanged, with no
shape check. -/
theorem c3_load_fails_iff_missing (d : DataDir) :
    (load_data d = none ↔ d.z_npy = none ∨ d.acc_npy = none ∨ d.georef_json = none) ∧
    ∀ z acc g, d.z_npy = some z → d.acc_npy = some acc → d.georef_json = some g →
      load_data d = some (z, acc, g) := by
  constructor
  · rcases hz : d.z_npy with _ | z <;> rcases ha : d.acc_npy with _ | acc <;>
      rcases hg : d.georef_json with _ | g <;> simp [load_data, hz, ha, hg]
  · intro z acc g hz ha hg
    simp [load_data, hz, ha, hg]

/-- Witness for `c3_load_fails_iff_missing` on the concrete directory
`c3Dir`. -/
theorem c3_load_fails_iff_missing_witness :
    load_data c3Dir = some (⟨1, 1, fun _ _ => some 0⟩, ⟨2, 2, fun _ _ => some 0⟩, g0) :=
  (c3_load_fails_iff_missing c3Dir).2 _ _ _ rfl rfl rfl

/-- C1 (code bug, evaluated at the failing input): constructing
`RiskModelConfig` with the three weights 0.5/0.5/0.5 (summing to 1.5, off by
0.5 > 0.001) succeeds — pydantic never calls `__post_init__`, whose own check
would reject it — and the plain dataclass `RiskParameters` likewise holds
those weights with no validation at all, contradicting the claim (and the
repository's own test) that construction raises `ValidationError`. -/
theorem c1_weight_validation_never_runs :
    constructRiskModelConfig badConfig = .ok badConfig ∧
      ¬ weightSumOk badConfig ∧
      badConfig.elevation_weight + badConfig.flow_accum_weight +
        badConfig.rainfall_weight = 3/2 ∧
      badParams.elevation_weight + badParams.flow_accum_weight +
        badParams.rainfall_weight = 3/2 := by
  refine ⟨?_, ?_, by norm_num [badConfig], by norm_num [badParams]⟩
  · rw [constructRiskModelConfig, if_pos]
    unfold riskModelConfigFieldsOk badConfig
    norm_num
  · unfold weightSumOk badConfig
    norm_num
    rw [abs_of_pos] <;> norm_num

/-- C10: the min–max normalisation in `_compute_base_risk_factors`
(risk.py:61-68) divides by `nanmax - nanmin` with no guard, so for a grid
whose elevation cells are all equal the division is 0/0 at every pixel and
every `elevation_risk` entry is NaN, silently — construction raises no
error — and likewise every `flow_accum_risk` entry is NaN when
`log1p(flow_accum)` is constant: the factor computation is well-defined only
under the non-constant-array precondition. -/
theorem c10_constant_normalisation_nan (L : ℚ → ℚ) (g : Grid) (params : RiskParameters)
    (e f : ℚ)
    (hh : 0 < g.elevation.height) (hw : 0 < g.elevation.width)
    (hhf : 0 < g.flow_accum.height) (hwf : 0 < g.flow_accum.width)
    (hconstE : ∀ r c, r < g.elevation.height → c < g.elevation.width →
      g.elevation.val r c = some e)
    (hconstF : ∀ r c, r < g.flow_accum.height → c < g.flow_accum.width →
      g.flow_accum.val r c = some f) :
    initFloodRiskAssessment (some g) params =
      some { grid := g, params := params, cache := none } ∧
    (∀ r c, r < g.elevation.height → c < g.elevation.width →
      elevation_risk g.elevation r c = none) ∧
    (∀ r c, r < g.flow_accum.height → c < g.flow_accum.width →
      flow_accum_risk L g.flow_accum r c = none) := by
  obtain ⟨hmnE, hmxE⟩ := nanmin_nanmax_const g.elevation e hh hw hconstE
  have hconstL : ∀ r c, r < (log1pArray L g.flow_accum).height →
      c < (log1pArray L g.flow_accum).width →
      (log1pArray L g.flow_accum).val r c = some (L f) := by
    intro r c hr hc
    show (g.flow_accum.val r c).map L = some (L f)
    rw [hconstF r c hr hc]
    rfl
  obtain ⟨hmnF, hmxF⟩ := nanmin_nanmax_const (log1pArray L g.flow_accum) (L f) hhf hwf hconstL
  refine ⟨rfl, ?_, ?_⟩
  · intro r c hr hc
    rw [elevation_risk, hconstE r c hr hc, hmnE, hmxE]
    simp [vSub, vDiv]
  · intro r c hr hc
    rw [flow_accum_risk, hconstL r c hr hc, hmnF, hmxF]
    simp [vSub, vDiv]

/-- Witness for `c10_constant_normalisation_nan` on the constant grid
`c10Grid`: both factors are NaN at pixel (0, 0). -/
theorem c10_constant_normalisation_nan_witness :
    elevation_risk c10Grid.elevation 0 0 = none ∧
      flow_accum_risk id c10Grid.flow_accum 0 0 = none := by
  have h := c10_constant_normalisation_nan id c10Grid ({} : RiskParameters) 5 3
    (by decide) (by decide) (by decide) (by decide)
    (fun _ _ _ _ => rfl) (fun _ _ _ _ => rfl)
  exact ⟨h.2.1 0 0 (by decide) (by decide), h.2.2 0 0 (by decide) (by decide)⟩

/-- C9: on a grid with non-constant elevation and non-constant
`log1p(flow_accum)` (expressed as `nanmin < nanmax` of the respective
surfaces) and valid parameters (non-negative weights summing to 1 within
0.001, positive ponding threshold), every pixel whose elevation and flow
inputs are non-NaN has `elevation_risk`, `flow_accum_risk` and the
`compute_risk_grid` composite all in [0, 1], and `depression_mask` is 0 or 1
at every pixel. -/
theorem c9_factors_and_composite_in_unit_interval (L : ℚ → ℚ) (m : FloodRiskAssessment)
    (rp : Option RainfallDict) (r c : ℕ) (mnE mxE mnF mxF v f : ℚ)
    (hr : r < m.grid.elevation.height) (hc : c < m.grid.elevation.width)
    (hrf : r < m.grid.flow_accum.height) (hcf : c < m.grid.flow_accum.width)
    (hmnE : nanmin m.grid.elevation = some mnE) (hmxE : nanmax m.grid.elevation = some mxE)
    (hElt : mnE < mxE)
    (hmnF : nanmin (log1pArray L m.grid.flow_accum) = some mnF)
    (hmxF : nanmax (log1pArray L m.grid.flow_accum) = some mxF)
    (hFlt : mnF < mxF)
    (hv : m.grid.elevation.val r c = some v)
    (hf : m.grid.flow_accum.val r c = some f)
    (hwE : 0 ≤ m.params.elevation_weight) (hwF : 0 ≤ m.params.flow_accum_weight)
    (hwR : 0 ≤ m.params.rainfall_weight)
    (_hsum : |m.params.elevation_weight + m.params.flow_accum_weight +
      m.params.rainfall_weight - 1| ≤ 1/1000)
    (hth : 0 < m.params.ponding_threshold_mm) :
    (∃ er, elevation_risk m.grid.elevation r c = some er ∧ 0 ≤ er ∧ er ≤ 1) ∧
    (∃ fr, flow_accum_risk L m.grid.flow_accum r c = some fr ∧ 0 ≤ fr ∧ fr ≤ 1) ∧
    (∃ q, (compute_risk_grid L m rp).val r c = some q ∧ 0 ≤ q ∧ q ≤ 1) ∧
    (depression_mask m.grid.elevation r c = 0 ∨ depression_mask m.grid.elevation r c = 1) := by
  have hmemE : v ∈ m.grid.elevation.finiteCells :=
    (mem_finiteCells_iff _ _).2 ⟨r, c, hr, hc, hv⟩
  have h1 : mnE ≤ v := nanmin_le _ _ _ hmnE hmemE
  have h2 : v ≤ mxE := le_nanmax _ _ _ hmxE hmemE
  have hdE : (0 : ℚ) < mxE - mnE := by linarith
  have hER : elevation_risk m.grid.elevation r c = some (1 - (v - mnE) / (mxE - mnE)) := by
    rw [elevation_risk, hv, hmnE, hmxE]
    simp [vSub, vDiv, hdE.ne']
  have hqE0 : 0 ≤ (v - mnE) / (mxE - mnE) := div_nonneg (by linarith) hdE.le
  have hqE1 : (v - mnE) / (mxE - mnE) ≤ 1 := (div_le_one hdE).2 (by linarith)
  have hvf : (log1pArray L m.grid.flow_accum).val r c = some (L f) := by
    show (m.grid.flow_accum.val r c).map L = some (L f)
    rw [hf]
    rfl
  have hmemF : L f ∈ (log1pArray L m.grid.flow_accum).finiteCells :=
    (mem_finiteCells_iff _ _).2 ⟨r, c, hrf, hcf, hvf⟩
  have h3 : mnF ≤ L f := nanmin_le _ _ _ hmnF hmemF
  have h4 : L f ≤ mxF := le_nanmax _ _ _ hmxF hmemF
  have hdF : (0 : ℚ) < mxF - mnF := by linarith
  have hFR : flow_accum_risk L m.grid.flow_accum r c =
      some ((L f - mnF) / (mxF - mnF)) := by
    rw [flow_accum_risk, hvf, hmnF, hmxF]
    simp [vSub, vDiv, hdF.ne']
  have hqF0 : 0 ≤ (L f - mnF) / (mxF - mnF) := div_nonneg (by linarith) hdF.le
  have hqF1 : (L f - mnF) / (mxF - mnF) ≤ 1 := (div_le_one hdF).2 (by linarith)
  refine ⟨⟨_, hER, by linarith, by linarith⟩, ⟨_, hFR, hqF0, hqF1⟩, ?_,
    depression_mask_binary m.grid.elevation r c⟩
  have hrf0 : 0 ≤ rainfallFactor m.params (resolveScenario m.params rp).1
      (resolveScenario m.params rp).2 :=
    le_min zero_le_one (div_nonneg (le_max_left 0 _) hth.le)
  have hmask0 : (0 : ℚ) ≤ (depression_mask m.grid.elevation r c : ℚ) * (1/5) := by
    positivity
  refine ⟨min 1
    (m.params.elevation_weight * (1 - (v - mnE) / (mxE - mnE)) +
      m.params.flow_accum_weight * ((L f - mnF) / (mxF - mnF)) +
      m.params.rainfall_weight * rainfallFactor m.params (resolveScenario m.params rp).1
        (resolveScenario m.params rp).2 +
      (depression_mask m.grid.elevation r c : ℚ) * (1/5)), ?_, ?_, min_le_left _ _⟩
  · show vMinOne (vAdd (vAdd (vAdd
        (vMul (some m.params.elevation_weight) (elevation_risk m.grid.elevation r c))
        (vMul (some m.params.flow_accum_weight) (flow_accum_risk L m.grid.flow_accum r c)))
        (vMul (some m.params.rainfall_weight) (some _)))
        (some ((depression_mask m.grid.elevation r c : ℚ) * (1/5)))) = some _
    rw [hER, hFR]
    simp only [vMul, vAdd, vMinOne]
  · have he0 : 0 ≤ m.params.elevation_weight * (1 - (v - mnE) / (mxE - mnE)) :=
      mul_nonneg hwE (by linarith)
    have hf0 : 0 ≤ m.params.flow_accum_weight * ((L f - mnF) / (mxF - mnF)) :=
      mul_nonneg hwF hqF0
    have hr0 : 0 ≤ m.params.rainfall_weight * rainfallFactor m.params
        (resolveScenario m.params rp).1 (resolveScenario m.params rp).2 :=
      mul_nonneg hwR hrf0
    exact le_min zero_le_one (by linarith)

/-- Witness for `c9_factors_and_composite_in_unit_interval` on the 2×2 model
`m9` (values 0..3, default parameters) at pixel (0, 0). -/
theorem c9_factors_and_composite_in_unit_interval_witness :
    (∃ er, elevation_risk m9.grid.elevation 0 0 = some er ∧ 0 ≤ er ∧ er ≤ 1) ∧
    (∃ fr, flow_accum_risk id m9.grid.flow_accum 0 0 = some fr ∧ 0 ≤ fr ∧ fr ≤ 1) ∧
    (∃ q, (compute_risk_grid id m9 none).val 0 0 = some q ∧ 0 ≤ q ∧ q ≤ 1) ∧
    (depression_mask m9.grid.elevation 0 0 = 0 ∨ depression_mask m9.grid.elevation 0 0 = 1) :=
  c9_factors_and_composite_in_unit_interval id m9 none 0 0 0 3 0 3 0 0
    (by decide) (by decide) (by decide) (by decide)
    (by norm_num [m9, w9Grid, nanmin, Array2.finiteCells, Array2.cells, w9Arr,
      List.range_succ, List.filterMap_cons, min_def])
    (by norm_num [m9, w9Grid, nanmax, Array2.finiteCells, Array2.cells, w9Arr,
      List.range_succ, List.filterMap_cons, max_def])
    (by norm_num)
    (by norm_num [m9, w9Grid, nanmin, Array2.finiteCells, Array2.cells, w9Arr, log1pArray,
      List.range_succ, List.filterMap_cons, min_def])
    (by norm_num [m9, w9Grid, nanmax, Array2.finiteCells, Array2.cells, w9Arr, log1pArray,
      List.range_succ, List.filterMap_cons, max_def])
    (by norm_num)
    (by norm_num [m9, w9Grid, w9Arr])
    (by norm_num [m9, w9Grid, w9Arr])
    (by norm_num [m9])
    (by norm_num [m9])
    (by norm_num [m9])
    (by norm_num [m9])
    (by norm_num [m9])

/-- The successful branch of `assess_point_risk` in closed form (shared by
the C4 and C5 developments): with the point in bounds, the pixel conversion
and both samplings succeeding, and the pixel inside the factor arrays with
non-NaN factors, the returned dictionary is exactly the rainfall/composite
formula of risk.py:145-204. -/
theorem assess_point_risk_closed (L : ℚ → ℚ) (m : FloodRiskAssessment) (lat lon : ℚ)
    (rp : Option RainfallDict) (row col : ℤ) (elevation flow er fr : ℚ)
    (hwb : m.grid.is_within_bounds_b lat lon = true)
    (hpix : m.grid.latlon_to_pixel lat lon = some (row, col))
    (hel : get_elevation m.grid lat lon = some elevation)
    (hfl : get_flow_accumulation m.grid lat lon = some flow)
    (hrow0 : 0 ≤ row) (hrowh : row < (m.grid.elevation.height : ℤ))
    (hcol0 : 0 ≤ col) (hcolw : col < (m.grid.elevation.width : ℤ))
    (her : elevation_risk m.grid.elevation row.toNat col.toNat = some er)
    (hfr : flow_accum_risk L m.grid.flow_accum row.toNat col.toNat = some fr) :
    assess_point_risk L m lat lon rp = .ok
      { lat := lat, lon := lon
        elevation_m := pyRound 2 elevation
        flow_accumulation := pyInt flow
        risk_score := some (pyRound 3
          (if depression_mask m.grid.elevation row.toNat col.toNat ≠ 0 then
            min 1 ((m.params.elevation_weight * er + m.params.flow_accum_weight * fr +
              m.params.rainfall_weight * rainfallFactor m.params
                (resolveScenario m.params rp).1 (resolveScenario m.params rp).2) * (6/5))
          else m.params.elevation_weight * er + m.params.flow_accum_weight * fr +
            m.params.rainfall_weight * rainfallFactor m.params
              (resolveScenario m.params rp).1 (resolveScenario m.params rp).2))
        risk_level := classifyRisk
          (if depression_mask m.grid.elevation row.toNat col.toNat ≠ 0 then
            min 1 ((m.params.elevation_weight * er + m.params.flow_accum_weight * fr +
              m.params.rainfall_weight * rainfallFactor m.params
                (resolveScenario m.params rp).1 (resolveScenario m.params rp).2) * (6/5))
          else m.params.elevation_weight * er + m.params.flow_accum_weight * fr +
            m.params.rainfall_weight * rainfallFactor m.params
              (resolveScenario m.params rp).1 (resolveScenario m.params rp).2)
        risk_level_numeric := (classifyRisk
          (if depression_mask m.grid.elevation row.toNat col.toNat ≠ 0 then
            min 1 ((m.params.elevation_weight * er + m.params.flow_accum_weight * fr +
              m.params.rainfall_weight * rainfallFactor m.params
                (resolveScenario m.params rp).1 (resolveScenario m.params rp).2) * (6/5))
          else m.params.elevation_weight * er + m.params.flow_accum_weight * fr +
            m.params.rainfall_weight * rainfallFactor m.params
              (resolveScenario m.params rp).1 (resolveScenario m.params rp).2)).toNumeric
        potential_depth_mm := pyRound 1 (potentialDepth m.params
          (resolveScenario m.params rp).1 (resolveScenario m.params rp).2)
        is_depression_area :=
          decide (depression_mask m.grid.elevation row.toNat col.toNat ≠ 0)
        factor_elevation_risk := some (pyRound 3 er)
        factor_flow_accum_risk := some (pyRound 3 fr)
        factor_rainfall := pyRound 3 (rainfallFactor m.params
          (resolveScenario m.params rp).1 (resolveScenario m.params rp).2)
        scenario_rainfall_mm_per_hour := (resolveScenario m.params rp).1
        scenario_duration_hours := (resolveScenario m.params rp).2
        scenario_total_rainfall_mm := pyRound 1
          ((resolveScenario m.params rp).1 * (resolveScenario m.params rp).2) } := by
  have hrange : (0 ≤ row ∧ row < (m.grid.elevation.height : ℤ) ∧ 0 ≤ col ∧
      col < (m.grid.elevation.width : ℤ)) := ⟨hrow0, hrowh, hcol0, hcolw⟩
  by_cases hdep : depression_mask m.grid.elevation row.toNat col.toNat = 0 <;>
    simp [assess_point_risk, hwb, hpix, hel, hfl, hrange, her, hfr, hdep,
      vMul, vAdd, pyMinOne, vRound, classifyRiskVal, rainfallFactor, potentialDepth]

/-- C4: for every in-bounds point whose elevation and flow accumulation can
be sampled and whose pixel indices lie inside the factor arrays,
`assess_point_risk` computes `totalRainfall = rate·duration`,
`drainage = drainage_coefficient·duration·3600·1000` (`potentialDepth` is
`max(0, totalRainfall − drainage)` by definition of `potentialDepth`),
`rainfallFactor = min(1, potentialDepth / ponding_threshold)` (definition of
`rainfallFactor`), `composite = wE·elevationRisk + wF·flowAccumRisk +
wR·rainfallFactor`, applies the multiplicative depression bonus
`min(1, composite·1.2)` exactly on depression cells, and classifies the
result with the five bands at 0.2/0.4/0.6/0.8 (below 0.2 VERY_LOW, from 0.8
VERY_HIGH). -/
theorem c4_point_risk_formula (L : ℚ → ℚ) (m : FloodRiskAssessment) (lat lon : ℚ)
    (rp : Option RainfallDict) (row col : ℤ) (elevation flow er fr : ℚ)
    (hwb : m.grid.is_within_bounds_b lat lon = true)
    (hpix : m.grid.latlon_to_pixel lat lon = some (row, col))
    (hel : get_elevation m.grid lat lon = some elevation)
    (hfl : get_flow_accumulation m.grid lat lon = some flow)
    (hrow0 : 0 ≤ row) (hrowh : row < (m.grid.elevation.height : ℤ))
    (hcol0 : 0 ≤ col) (hcolw : col < (m.grid.elevation.width : ℤ))
    (her : elevation_risk m.grid.elevation row.toNat col.toNat = some er)
    (hfr : flow_accum_risk L m.grid.flow_accum row.toNat col.toNat = some fr) :
    (assess_point_risk L m lat lon rp = .ok
      { lat := lat, lon := lon
        elevation_m := pyRound 2 elevation
        flow_accumulation := pyInt flow
        risk_score := some (pyRound 3
          (if depression_mask m.grid.elevation row.toNat col.toNat ≠ 0 then
            min 1 ((m.params.elevation_weight * er + m.params.flow_accum_weight * fr +
              m.params.rainfall_weight * rainfallFactor m.params
                (resolveScenario m.params rp).1 (resolveScenario m.params rp).2) * (6/5))
          else m.params.elevation_weight * er + m.params.flow_accum_weight * fr +
            m.params.rainfall_weight * rainfallFactor m.params
              (resolveScenario m.params rp).1 (resolveScenario m.params rp).2))
        risk_level := classifyRisk
          (if depression_mask m.grid.elevation row.toNat col.toNat ≠ 0 then
            min 1 ((m.params.elevation_weight * er + m.params.flow_accum_weight * fr +
              m.params.rainfall_weight * rainfallFactor m.params
                (resolveScenario m.params rp).1 (resolveScenario m.params rp).2) * (6/5))
          else m.params.elevation_weight * er + m.params.flow_accum_weight * fr +
            m.params.rainfall_weight * rainfallFactor m.params
              (resolveScenario m.params rp).1 (resolveScenario m.params rp).2)
        risk_level_numeric := (classifyRisk
          (if depression_mask m.grid.elevation row.toNat col.toNat ≠ 0 then
            min 1 ((m.params.elevation_weight * er + m.params.flow_accum_weight * fr +
              m.params.rainfall_weight * rainfallFactor m.params
                (resolveScenario m.params rp).1 (resolveScenario m.params rp).2) * (6/5))
          else m.params.elevation_weight * er + m.params.flow_accum_weight * fr +
            m.params.rainfall_weight * rainfallFactor m.params
              (resolveScenario m.params rp).1 (resolveScenario m.params rp).2)).toNumeric
        potential_depth_mm := pyRound 1 (max 0
          ((resolveScenario m.params rp).1 * (resolveScenario m.params rp).2 -
            m.params.drainage_coefficient * (resolveScenario m.params rp).2 * 3600 * 1000))
        is_depression_area :=
          decide (depression_mask m.grid.elevation row.toNat col.toNat ≠ 0)
        factor_elevation_risk := some (pyRound 3 er)
        factor_flow_accum_risk := some (pyRound 3 fr)
        factor_rainfall := pyRound 3 (rainfallFactor m.params
          (resolveScenario m.params rp).1 (resolveScenario m.params rp).2)
        scenario_rainfall_mm_per_hour := (resolveScenario m.params rp).1
        scenario_duration_hours := (resolveScenario m.params rp).2
        scenario_total_rainfall_mm := pyRound 1
          ((resolveScenario m.params rp).1 * (resolveScenario m.params rp).2) }) ∧
    (∀ q : ℚ,
      (classifyRisk q = .VERY_LOW ↔ q < 1/5) ∧
      (classifyRisk q = .LOW ↔ 1/5 ≤ q ∧ q < 2/5) ∧
      (classifyRisk q = .MODERATE ↔ 2/5 ≤ q ∧ q < 3/5) ∧
      (classifyRisk q = .HIGH ↔ 3/5 ≤ q ∧ q < 4/5) ∧
      (classifyRisk q = .VERY_HIGH ↔ 4/5 ≤ q)) ∧
    (rainfallFactor m.params (resolveScenario m.params rp).1 (resolveScenario m.params rp).2 =
      min 1 (max 0 ((resolveScenario m.params rp).1 * (resolveScenario m.params rp).2 -
        m.params.drainage_coefficient * (resolveScenario m.params rp).2 * 3600 * 1000) /
          m.params.ponding_threshold_mm)) := by
  refine ⟨?_, fun q => classifyRisk_spec q, rfl⟩
  have h := assess_point_risk_closed L m lat lon rp row col elevation flow er fr
    hwb hpix hel hfl hrow0 hrowh hcol0 hcolw her hfr
  exact h

/-- Witness for `c4_point_risk_formula` on `m4` at the point mapped to pixel
(0, 0): the full returned dictionary, with the depression bonus applied
(pixel (0, 0) is a depression cell of `w9Arr`). -/
theorem c4_point_risk_formula_witness :
    assess_point_risk id m4 0 0 none = .ok
      { lat := 0, lon := 0, elevation_m := 0, flow_accumulation := 0
        risk_score := some 1, risk_level := .VERY_HIGH, risk_level_numeric := 4
        potential_depth_mm := 482/5, is_depression_area := true
        factor_elevation_risk := some 1, factor_flow_accum_risk := some 0
        factor_rainfall := 1, scenario_rainfall_mm_per_hour := 100
        scenario_duration_hours := 1, scenario_total_rainfall_mm := 100 } := by
  have hoff : footprintOffsets =
      [(-2,-2),(-2,-1),(-2,0),(-2,1),(-2,2),
       (-1,-2),(-1,-1),(-1,0),(-1,1),(-1,2),
       (0,-2),(0,-1),(0,1),(0,2),
       (1,-2),(1,-1),(1,0),(1,1),(1,2),
       (2,-2),(2,-1),(2,0),(2,1),(2,2)] := by decide
  have hnm00 : neighborhood_mean w9Arr 0 0 = some 2 := by
    rw [neighborhood_mean, hoff]; norm_num [w9Arr, List.filterMap_cons]
  have hnm01 : neighborhood_mean w9Arr 0 1 = some (5/3) := by
    rw [neighborhood_mean, hoff]; norm_num [w9Arr, List.filterMap_cons]
  have hnm10 : neighborhood_mean w9Arr 1 0 = some (4/3) := by
    rw [neighborhood_mean, hoff]; norm_num [w9Arr, List.filterMap_cons]
  have hnm11 : neighborhood_mean w9Arr 1 1 = some 1 := by
    rw [neighborhood_mean, hoff]; norm_num [w9Arr, List.filterMap_cons]
  have hd00 : elevation_diff w9Arr 0 0 = some 2 := by
    rw [elevation_diff, hnm00]; norm_num [w9Arr, vSub]
  have hd01 : elevation_diff w9Arr 0 1 = some (2/3) := by
    rw [elevation_diff, hnm01]; norm_num [w9Arr, vSub]
  have hd10 : elevation_diff w9Arr 1 0 = some (-2/3) := by
    rw [elevation_diff, hnm10]; norm_num [w9Arr, vSub]
  have hd11 : elevation_diff w9Arr 1 1 = some (-2) := by
    rw [elevation_diff, hnm11]; norm_num [w9Arr, vSub]
  have hvar : diffVariance w9Arr = 20/9 := by
    rw [diffVariance, finiteDiffs]
    simp only [show w9Arr.height = 2 from rfl, show w9Arr.width = 2 from rfl]
    norm_num [List.range_succ, hd00, hd01, hd10, hd11, List.filterMap_cons]
  have hmask : depression_mask w9Arr 0 0 = 1 := by
    rw [depression_mask, hd00, hvar]
    norm_num
  have hmnE : nanmin w9Arr = some 0 := by
    norm_num [nanmin, Array2.finiteCells, Array2.cells, w9Arr,
      List.range_succ, List.filterMap_cons, min_def]
  have hmxE : nanmax w9Arr = some 3 := by
    norm_num [nanmax, Array2.finiteCells, Array2.cells, w9Arr,
      List.range_succ, List.filterMap_cons, max_def]
  have hmnF : nanmin (log1pArray id w9Arr) = some 0 := by
    norm_num [nanmin, Array2.finiteCells, Array2.cells, w9Arr, log1pArray,
      List.range_succ, List.filterMap_cons, min_def]
  have hmxF : nanmax (log1pArray id w9Arr) = some 3 := by
    norm_num [nanmax, Array2.finiteCells, Array2.cells, w9Arr, log1pArray,
      List.range_succ, List.filterMap_cons, max_def]
  have her : elevation_risk w9Arr 0 0 = some 1 := by
    rw [elevation_risk, hmnE, hmxE]
    norm_num [w9Arr, vSub, vDiv]
  have hfr : flow_accum_risk id w9Arr 0 0 = some 0 := by
    rw [flow_accum_risk, hmnF, hmxF]
    norm_num [w9Arr, log1pArray, vSub, vDiv]
  have hel : get_elevation w9Grid 0 0 = some 0 := by
    norm_num [get_elevation, w9Grid, bilinear_interpolate, w9Arr]
  have hfl : get_flow_accumulation w9Grid 0 0 = some 0 := by
    norm_num [get_flow_accumulation, w9Grid, bilinear_interpolate, w9Arr]
  have h := (c4_point_risk_formula id m4 0 0 none 0 0 0 0 1 0 rfl rfl hel hfl
    (by decide) (by decide) (by decide) (by decide) her hfr).1
  rw [h]
  norm_num [m4, w9Grid, hmask, resolveScenario, rainfallFactor, potentialDepth,
    pyRound, roundHalfEven, pyInt, classifyRisk, RiskLevel.toNumeric, min_def, max_def]

/-- C5: `compute_risk_grid` applies, at every pixel, the same
rainfall/drainage/composite formula as `assess_point_risk` but with an
additive depression bonus: the grid value is
`min(1, composite + 0.2·depressionMask)`.  Consequently (for factors in
[0, 1], non-negative weights of sum ≤ 1, positive threshold) on a
non-depression pixel the grid value equals the point-level composite — the
`if`-expression of the `assess_point_risk` record — for the same factor
values, while on a depression cell the grid path adds 0.2 where the point
path multiplies by 1.2, both capped at 1. -/
theorem c5_grid_additive_vs_point_multiplicative (L : ℚ → ℚ)
    (m : FloodRiskAssessment) (rp : Option RainfallDict) (r c : ℕ) (er fr : ℚ)
    (her : elevation_risk m.grid.elevation r c = some er)
    (hfr : flow_accum_risk L m.grid.flow_accum r c = some fr)
    (_her0 : 0 ≤ er) (her1 : er ≤ 1) (_hfr0 : 0 ≤ fr) (hfr1 : fr ≤ 1)
    (hwE : 0 ≤ m.params.elevation_weight) (hwF : 0 ≤ m.params.flow_accum_weight)
    (hwR : 0 ≤ m.params.rainfall_weight)
    (hsum : m.params.elevation_weight + m.params.flow_accum_weight +
      m.params.rainfall_weight ≤ 1)
    (hth : 0 < m.params.ponding_threshold_mm) :
    ((compute_risk_grid L m rp).val r c = some (min 1
      (m.params.elevation_weight * er + m.params.flow_accum_weight * fr +
        m.params.rainfall_weight * rainfallFactor m.params
          (resolveScenario m.params rp).1 (resolveScenario m.params rp).2 +
        (depression_mask m.grid.elevation r c : ℚ) * (1/5)))) ∧
    (depression_mask m.grid.elevation r c = 0 →
      (compute_risk_grid L m rp).val r c = some
        (if depression_mask m.grid.elevation r c ≠ 0 then
          min 1 ((m.params.elevation_weight * er + m.params.flow_accum_weight * fr +
            m.params.rainfall_weight * rainfallFactor m.params
              (resolveScenario m.params rp).1 (resolveScenario m.params rp).2) * (6/5))
        else m.params.elevation_weight * er + m.params.flow_accum_weight * fr +
          m.params.rainfall_weight * rainfallFactor m.params
            (resolveScenario m.params rp).1 (resolveScenario m.params rp).2)) ∧
    (depression_mask m.grid.elevation r c ≠ 0 →
      (compute_risk_grid L m rp).val r c = some (min 1
        (m.params.elevation_weight * er + m.params.flow_accum_weight * fr +
          m.params.rainfall_weight * rainfallFactor m.params
            (resolveScenario m.params rp).1 (resolveScenario m.params rp).2 + 1/5)) ∧
      (if depression_mask m.grid.elevation r c ≠ 0 then
        min 1 ((m.params.elevation_weight * er + m.params.flow_accum_weight * fr +
          m.params.rainfall_weight * rainfallFactor m.params
            (resolveScenario m.params rp).1 (resolveScenario m.params rp).2) * (6/5))
      else m.params.elevation_weight * er + m.params.flow_accum_weight * fr +
        m.params.rainfall_weight * rainfallFactor m.params
          (resolveScenario m.params rp).1 (resolveScenario m.params rp).2) =
        min 1 ((m.params.elevation_weight * er + m.params.flow_accum_weight * fr +
          m.params.rainfall_weight * rainfallFactor m.params
            (resolveScenario m.params rp).1 (resolveScenario m.params rp).2) * (6/5))) := by
  have hgrid : (compute_risk_grid L m rp).val r c = some (min 1
      (m.params.elevation_weight * er + m.params.flow_accum_weight * fr +
        m.params.rainfall_weight * rainfallFactor m.params
          (resolveScenario m.params rp).1 (resolveScenario m.params rp).2 +
        (depression_mask m.grid.elevation r c : ℚ) * (1/5))) := by
    show vMinOne (vAdd (vAdd (vAdd
        (vMul (some m.params.elevation_weight) (elevation_risk m.grid.elevation r c))
        (vMul (some m.params.flow_accum_weight) (flow_accum_risk L m.grid.flow_accum r c)))
        (vMul (some m.params.rainfall_weight) (some _)))
        (some ((depression_mask m.grid.elevation r c : ℚ) * (1/5)))) = some _
    rw [her, hfr]
    simp only [vMul, vAdd, vMinOne]
  refine ⟨hgrid, ?_, ?_⟩
  · intro hz
    rw [hgrid, hz]
    have hrf1 : rainfallFactor m.params (resolveScenario m.params rp).1
        (resolveScenario m.params rp).2 ≤ 1 := min_le_left 1 _
    have hrf0 : 0 ≤ rainfallFactor m.params (resolveScenario m.params rp).1
        (resolveScenario m.params rp).2 :=
      le_min zero_le_one (div_nonneg (le_max_left 0 _) hth.le)
    have hbase1 : m.params.elevation_weight * er + m.params.flow_accum_weight * fr +
        m.params.rainfall_weight * rainfallFactor m.params
          (resolveScenario m.params rp).1 (resolveScenario m.params rp).2 ≤ 1 := by
      have e1 : m.params.elevation_weight * er ≤ m.params.elevation_weight :=
        mul_le_of_le_one_right hwE her1
      have e2 : m.params.flow_accum_weight * fr ≤ m.params.flow_accum_weight :=
        mul_le_of_le_one_right hwF hfr1
      have e3 : m.params.rainfall_weight * rainfallFactor m.params
          (resolveScenario m.params rp).1 (resolveScenario m.params rp).2 ≤
            m.params.rainfall_weight :=
        mul_le_of_le_one_right hwR hrf1
      linarith
    rw [if_neg (by simp)]
    rw [Nat.cast_zero, zero_mul, add_zero, min_eq_right hbase1]
  · intro hnz
    have h1 : depression_mask m.grid.elevation r c = 1 :=
      (depression_mask_binary m.grid.elevation r c).resolve_left hnz
    constructor
    · rw [hgrid, h1]
      norm_num
    · rw [if_pos hnz]

/-- Witness for `c5_grid_additive_vs_point_multiplicative` on `m4` at pixel
(0, 0): the grid value is the capped additive-bonus formula. -/
theorem c5_grid_additive_vs_point_multiplicative_witness :
    (compute_risk_grid id m4 none).val 0 0 = some (min 1
      (m4.params.elevation_weight * 1 + m4.params.flow_accum_weight * 0 +
        m4.params.rainfall_weight * rainfallFactor m4.params
          (resolveScenario m4.params none).1 (resolveScenario m4.params none).2 +
        (depression_mask m4.grid.elevation 0 0 : ℚ) * (1/5))) := by
  have hmnE : nanmin w9Arr = some 0 := by
    norm_num [nanmin, Array2.finiteCells, Array2.cells, w9Arr,
      List.range_succ, List.filterMap_cons, min_def]
  have hmxE : nanmax w9Arr = some 3 := by
    norm_num [nanmax, Array2.finiteCells, Array2.cells, w9Arr,
      List.range_succ, List.filterMap_cons, max_def]
  have hmnF : nanmin (log1pArray id w9Arr) = some 0 := by
    norm_num [nanmin, Array2.finiteCells, Array2.cells, w9Arr, log1pArray,
      List.range_succ, List.filterMap_cons, min_def]
  have hmxF : nanmax (log1pArray id w9Arr) = some 3 := by
    norm_num [nanmax, Array2.finiteCells, Array2.cells, w9Arr, log1pArray,
      List.range_succ, List.filterMap_cons, max_def]
  have her : elevation_risk w9Arr 0 0 = some 1 := by
    rw [elevation_risk, hmnE, hmxE]
    norm_num [w9Arr, vSub, vDiv]
  have hfr : flow_accum_risk id w9Arr 0 0 = some 0 := by
    rw [flow_accum_risk, hmnF, hmxF]
    norm_num [w9Arr, log1pArray, vSub, vDiv]
  exact (c5_grid_additive_vs_point_multiplicative id m4 none 0 0 1 0 her hfr
    (by norm_num) (by norm_num) (by norm_num) (by norm_num)
    (by norm_num [m4]) (by norm_num [m4]) (by norm_num [m4]) (by norm_num [m4])
    (by norm_num [m4])).1

/-- At every pixel, at most one of the four tier masks holds: the tiers
partition the risk surface. -/
theorem tierMask_count_le_one (risk : Array2) (r c : ℕ) :
    ([tierMask risk (4/5) 1 true r c, tierMask risk (3/5) (4/5) false r c,
      tierMask risk (2/5) (3/5) false r c,
      tierMask risk (1/5) (2/5) false r c].count true) ≤ 1 := by
  rcases hv : risk.val r c with _ | q
  · simp [tierMask, hv]
  · have e1 : tierMask risk (4/5) 1 true r c = decide ((4 : ℚ)/5 ≤ q) := by
      unfold tierMask
      rw [hv]
      rfl
    have e2 : tierMask risk (3/5) (4/5) false r c =
        decide ((3 : ℚ)/5 ≤ q ∧ q < 4/5) := by
      unfold tierMask
      rw [hv]
      rfl
    have e3 : tierMask risk (2/5) (3/5) false r c =
        decide ((2 : ℚ)/5 ≤ q ∧ q < 3/5) := by
      unfold tierMask
      rw [hv]
      rfl
    have e4 : tierMask risk (1/5) (2/5) false r c =
        decide ((1 : ℚ)/5 ≤ q ∧ q < 2/5) := by
      unfold tierMask
      rw [hv]
      rfl
    rw [e1, e2, e3, e4]
    rcases lt_or_le q (1/5) with h1 | h1
    · rw [decide_eq_false (by intro h; linarith),
        decide_eq_false (by rintro ⟨h, _⟩; linarith),
        decide_eq_false (by rintro ⟨h, _⟩; linarith),
        decide_eq_false (by rintro ⟨h, _⟩; linarith)]
      simp
    rcases lt_or_le q (2/5) with h2 | h2
    · rw [decide_eq_false (by intro h; linarith),
        decide_eq_false (by rintro ⟨h, _⟩; linarith),
        decide_eq_false (by rintro ⟨h, _⟩; linarith),
        decide_eq_true ⟨h1, h2⟩]
      simp
    rcases lt_or_le q (3/5) with h3 | h3
    · rw [decide_eq_false (by intro h; linarith),
        decide_eq_false (by rintro ⟨h, _⟩; linarith),
        decide_eq_true ⟨h2, h3⟩,
        decide_eq_false (by rintro ⟨_, h⟩; linarith)]
      simp
    rcases lt_or_le q (4/5) with h4 | h4
    · rw [decide_eq_false (by intro h; linarith),
        decide_eq_true ⟨h3, h4⟩,
        decide_eq_false (by rintro ⟨_, h⟩; linarith),
        decide_eq_false (by rintro ⟨_, h⟩; linarith)]
      simp
    · rw [decide_eq_true h4,
        decide_eq_false (by rintro ⟨_, h⟩; linarith),
        decide_eq_false (by rintro ⟨_, h⟩; linarith),
        decide_eq_false (by rintro ⟨_, h⟩; linarith)]
      simp

/-- Every area produced by `process_tier` has at least 5 pixels, and the
output list is truncated to `max_areas_per_tier`. -/
theorem process_tier_regions (g : Grid) (risk : Array2) (tier : String) (lo hi : ℚ)
    (isTop : Bool) (maxA : ℕ) :
    (∀ a ∈ process_tier g risk tier lo hi isTop maxA, 5 ≤ a.pixel_count) ∧
    (process_tier g risk tier lo hi isTop maxA).length ≤ maxA := by
  unfold process_tier
  by_cases hmask : maskAny (tierMask risk lo hi isTop) risk.height risk.width = true
  · rw [if_neg (not_not_intro hmask)]
    constructor
    · intro a ha
      have ha1 := List.take_subset _ _ ha
      rw [mem_sortByKey] at ha1
      obtain ⟨p, hp, rfl⟩ := List.mem_map.1 ha1
      have hp1 := List.take_subset _ _ hp
      rw [mem_sortByKey] at hp1
      obtain ⟨hp2, hp3⟩ := List.mem_filter.1 hp1
      obtain ⟨id, _, rfl⟩ := List.mem_map.1 hp2
      have h5 : 5 ≤ componentSize
          (ccLabels (tierMask risk lo hi isTop) risk.height risk.width) id :=
        of_decide_eq_true hp3
      simp only [mkTieredArea, componentPixels, List.length_map]
      simpa [componentSize] using h5
    · rw [List.length_take]
      exact min_le_left _ _
  · rw [if_pos hmask]
    exact ⟨fun a ha => absurd ha (List.not_mem_nil a), by simp⟩

/-- C6: `get_tiered_risk_areas` partitions the risk surface — at every pixel
at most one of the four tier masks very_high [0.8, ∞), high [0.6, 0.8),
moderate [0.4, 0.6), low [0.2, 0.4) holds — and for each tier it skips an
empty mask entirely, keeps only connected components of at least 5 pixels
(so every returned region has pixel count ≥ 5) and truncates each tier's
list to `max_areas_per_tier` after the size and mean-risk sorts. -/
theorem c6_tiered_partition_and_regions (L : ℚ → ℚ) (m : FloodRiskAssessment) (maxA : ℕ) :
    (∀ r c : ℕ,
      ([tierMask (risk_grid_for_tiered L m).1 (4/5) 1 true r c,
        tierMask (risk_grid_for_tiered L m).1 (3/5) (4/5) false r c,
        tierMask (risk_grid_for_tiered L m).1 (2/5) (3/5) false r c,
        tierMask (risk_grid_for_tiered L m).1 (1/5) (2/5) false r c].count true) ≤ 1) ∧
    (∀ a ∈ (get_tiered_risk_areas L m maxA).1.very_high, 5 ≤ a.pixel_count) ∧
    (∀ a ∈ (get_tiered_risk_areas L m maxA).1.high, 5 ≤ a.pixel_count) ∧
    (∀ a ∈ (get_tiered_risk_areas L m maxA).1.moderate, 5 ≤ a.pixel_count) ∧
    (∀ a ∈ (get_tiered_risk_areas L m maxA).1.low, 5 ≤ a.pixel_count) ∧
    ((get_tiered_risk_areas L m maxA).1.very_high.length ≤ maxA ∧
      (get_tiered_risk_areas L m maxA).1.high.length ≤ maxA ∧
      (get_tiered_risk_areas L m maxA).1.moderate.length ≤ maxA ∧
      (get_tiered_risk_areas L m maxA).1.low.length ≤ maxA) ∧
    (∀ tier lo hi isTop,
      maskAny (tierMask (risk_grid_for_tiered L m).1 lo hi isTop)
        (risk_grid_for_tiered L m).1.height (risk_grid_for_tiered L m).1.width = false →
      process_tier m.grid (risk_grid_for_tiered L m).1 tier lo hi isTop maxA = []) := by
  refine ⟨fun r c => tierMask_count_le_one _ r c,
    (process_tier_regions m.grid (risk_grid_for_tiered L m).1 "very_high" (4/5) 1 true maxA).1,
    (process_tier_regions m.grid (risk_grid_for_tiered L m).1 "high" (3/5) (4/5) false maxA).1,
    (process_tier_regions m.grid (risk_grid_for_tiered L m).1 "moderate" (2/5) (3/5) false maxA).1,
    (process_tier_regions m.grid (risk_grid_for_tiered L m).1 "low" (1/5) (2/5) false maxA).1,
    ⟨(process_tier_regions m.grid (risk_grid_for_tiered L m).1 "very_high" (4/5) 1 true maxA).2,
     (process_tier_regions m.grid (risk_grid_for_tiered L m).1 "high" (3/5) (4/5) false maxA).2,
     (process_tier_regions m.grid (risk_grid_for_tiered L m).1 "moderate" (2/5) (3/5) false maxA).2,
     (process_tier_regions m.grid (risk_grid_for_tiered L m).1 "low" (1/5) (2/5) false maxA).2⟩,
    ?_⟩
  intro tier lo hi isTop h
  unfold process_tier
  rw [if_pos (by rw [h]; exact Bool.false_ne_true)]

/-- Witness for `c6_tiered_partition_and_regions` on `m7` (cached 1×5 risk
surface of constant value 1): the very-high tier returns exactly one region
of 5 pixels, and the high tier's mask is empty so its list is empty. -/
theorem c6_tiered_partition_and_regions_witness :
    (∃ a, (get_tiered_risk_areas id m7 50).1.very_high = [a] ∧ 5 ≤ a.pixel_count) ∧
    process_tier m7.grid (risk_grid_for_tiered id m7).1 "high" (3/5) (4/5) false 50 = [] := by
  have hhit : risk_grid_for_tiered id m7 = (riskX, m7) := by
    unfold risk_grid_for_tiered
    rw [show m7.cache = some ((25, 1), riskX) from rfl]
    exact if_pos rfl
  have hmaskVH : ∀ r c, tierMask riskX (4/5) 1 true r c = true := by
    intro r c
    simp only [tierMask, riskX]
    exact decide_eq_true (by norm_num)
  have hlab : ccLabels (tierMask riskX (4/5) 1 true) 1 5 = [1, 1, 1, 1, 1] := by
    norm_num [ccLabels, ccStep, ccInit, hmaskVH, Function.iterate_succ,
      Function.iterate_zero, List.range_succ, min_def]
  have hvh : (get_tiered_risk_areas id m7 50).1.very_high =
      [{ tier := "very_high", area_id := 1, pixel_count := 5, area_approx_m2 := 125,
         centroid_lat := 0, centroid_lon := 2, mean_risk := some 1, max_risk := some 1,
         min_risk := some 1, mean_elevation := some 2, min_elevation := some 0,
         max_elevation := some 4 }] := by
    show process_tier m7.grid (risk_grid_for_tiered id m7).1 "very_high" (4/5) 1 true 50 = _
    rw [hhit]
    show process_tier grid7 riskX "very_high" (4/5) 1 true 50 = _
    rw [process_tier]
    rw [show riskX.height = 1 from rfl, show riskX.width = 5 from rfl]
    rw [if_neg (by simp [maskAny, gridPositions, hmaskVH, List.range_succ])]
    rw [hlab]
    norm_num [componentIds, componentSize, componentPixels, List.range_succ,
      sortByKey, insertByKey, mkTieredArea, grid7, riskX, listMean, listMax, listMin,
      List.filterMap_cons, vKey, pyInt, g0, min_def, max_def]
    exact ⟨fun h => by simp at h, fun h => by simp at h, fun h => by simp at h⟩
  refine ⟨⟨_, hvh, ?_⟩, ?_⟩
  · exact (c6_tiered_partition_and_regions id m7 50).2.1 _
      (by rw [hvh]; exact List.mem_singleton_self _)
  · refine (c6_tiered_partition_and_regions id m7 50).2.2.2.2.2.2 "high" (3/5) (4/5) false ?_
    rw [hhit]
    show maskAny (tierMask riskX (3/5) (4/5) false) riskX.height riskX.width = false
    have hm : ∀ r c, tierMask riskX (3/5) (4/5) false r c = false := by
      intro r c
      simp only [tierMask, riskX]
      exact decide_eq_false (by rintro ⟨_, h⟩; norm_num at h)
    simp [maskAny, gridPositions, hm, List.range_succ]

/-- Storing the freshly computed grid under the current parameters' key
satisfies the coherence invariant (setting the key's scenario back into the
parameters is the identity). -/
theorem cache_coherent_current (L : ℚ → ℚ) (m : FloodRiskAssessment) :
    cache_coherent L { m with cache := some (cacheKeyOf m.params,
      compute_risk_grid L m (some ⟨some m.params.rainfall_mm_per_hour,
        some m.params.duration_hours⟩)) } := by
  intro k g hkg
  simp only [Option.some.injEq, Prod.mk.injEq] at hkg
  obtain ⟨hk, hg⟩ := hkg
  subst hk
  subst hg
  rfl

/-- C7: the risk-grid cache is keyed by (rainfall rate, duration): on a key
match the cached grid is returned and the state is unchanged (no recompute);
on a key mismatch or an empty cache, `compute_risk_grid` is evaluated at the
current parameters and stored under the current key; the coherence
invariant — a cached grid equals `compute_risk_grid` at the scenario its key
encodes — is preserved by the tiered query, by `invalidate_cache` and by the
API's rainfall/duration mutations; and a tiered query after
`invalidate_cache` following a change of `rainfall_mm_per_hour` is computed
from the grid at the new rate, never from a stale cache. -/
theorem c7_cache_keyed_and_coherent (L : ℚ → ℚ) :
    (∀ (m : FloodRiskAssessment) (k : ℚ × ℚ) (g : Array2), m.cache = some (k, g) →
      k = cacheKeyOf m.params → risk_grid_for_tiered L m = (g, m)) ∧
    (∀ (m : FloodRiskAssessment) (k : ℚ × ℚ) (g : Array2), m.cache = some (k, g) →
      k ≠ cacheKeyOf m.params → risk_grid_for_tiered L m =
        (compute_risk_grid L m (some ⟨some m.params.rainfall_mm_per_hour,
            some m.params.duration_hours⟩),
          { m with cache := some (cacheKeyOf m.params, compute_risk_grid L m
              (some ⟨some m.params.rainfall_mm_per_hour,
                some m.params.duration_hours⟩)) })) ∧
    (∀ m : FloodRiskAssessment, m.cache = none → risk_grid_for_tiered L m =
        (compute_risk_grid L m (some ⟨some m.params.rainfall_mm_per_hour,
            some m.params.duration_hours⟩),
          { m with cache := some (cacheKeyOf m.params, compute_risk_grid L m
              (some ⟨some m.params.rainfall_mm_per_hour,
                some m.params.duration_hours⟩)) })) ∧
    (∀ (m : FloodRiskAssessment) (maxA : ℕ), cache_coherent L m →
      cache_coherent L (get_tiered_risk_areas L m maxA).2) ∧
    (∀ m : FloodRiskAssessment, cache_coherent L (invalidate_cache m)) ∧
    (∀ (m : FloodRiskAssessment) (v : ℚ), cache_coherent L m →
      cache_coherent L (set_rainfall_mm_per_hour m v)) ∧
    (∀ (m : FloodRiskAssessment) (v : ℚ), cache_coherent L m →
      cache_coherent L (set_duration_hours m v)) ∧
    (∀ (m : FloodRiskAssessment) (v : ℚ) (maxA : ℕ),
      (get_tiered_risk_areas L (invalidate_cache (set_rainfall_mm_per_hour m v)) maxA).1 =
        { very_high := process_tier m.grid (compute_risk_grid L
            (invalidate_cache (set_rainfall_mm_per_hour m v))
            (some ⟨some v, some m.params.duration_hours⟩)) "very_high" (4/5) 1 true maxA
          high := process_tier m.grid (compute_risk_grid L
            (invalidate_cache (set_rainfall_mm_per_hour m v))
            (some ⟨some v, some m.params.duration_hours⟩)) "high" (3/5) (4/5) false maxA
          moderate := process_tier m.grid (compute_risk_grid L
            (invalidate_cache (set_rainfall_mm_per_hour m v))
            (some ⟨some v, some m.params.duration_hours⟩)) "moderate" (2/5) (3/5) false maxA
          low := process_tier m.grid (compute_risk_grid L
            (invalidate_cache (set_rainfall_mm_per_hour m v))
            (some ⟨some v, some m.params.duration_hours⟩)) "low" (1/5) (2/5) false maxA }) := by
  refine ⟨?_, ?_, ?_, ?_, ?_, ?_, ?_, ?_⟩
  · intro m k g hc hk
    unfold risk_grid_for_tiered
    rw [hc]
    show (if k = cacheKeyOf m.params then ((k, g).2, m)
      else recompute_and_cache L m) = (g, m)
    rw [if_pos hk]
  · intro m k g hc hk
    unfold risk_grid_for_tiered
    rw [hc]
    show (if k = cacheKeyOf m.params then ((k, g).2, m)
      else recompute_and_cache L m) = _
    rw [if_neg hk]
    rfl
  · intro m hc
    unfold risk_grid_for_tiered
    rw [hc]
    rfl
  · intro m maxA hco
    rcases hc : m.cache with _ | kg
    · have hstate : (get_tiered_risk_areas L m maxA).2 =
          { m with cache := some (cacheKeyOf m.params, compute_risk_grid L m
            (some ⟨some m.params.rainfall_mm_per_hour,
              some m.params.duration_hours⟩)) } := by
        show (risk_grid_for_tiered L m).2 = _
        unfold risk_grid_for_tiered
        rw [hc]
        rfl
      rw [hstate]
      exact cache_coherent_current L m
    · by_cases hkey : kg.1 = cacheKeyOf m.params
      · have hstate : (get_tiered_risk_areas L m maxA).2 = m := by
          show (risk_grid_for_tiered L m).2 = _
          unfold risk_grid_for_tiered
          rw [hc]
          show (if kg.1 = cacheKeyOf m.params then (kg.2, m)
            else recompute_and_cache L m).2 = m
          rw [if_pos hkey]
        rw [hstate]
        exact hco
      · have hstate : (get_tiered_risk_areas L m maxA).2 =
            { m with cache := some (cacheKeyOf m.params, compute_risk_grid L m
              (some ⟨some m.params.rainfall_mm_per_hour,
                some m.params.duration_hours⟩)) } := by
          show (risk_grid_for_tiered L m).2 = _
          unfold risk_grid_for_tiered
          rw [hc]
          show (if kg.1 = cacheKeyOf m.params then (kg.2, m)
            else recompute_and_cache L m).2 = _
          rw [if_neg hkey]
          rfl
        rw [hstate]
        exact cache_coherent_current L m
  · intro m k g h
    exact Option.noConfusion h
  · intro m v hco k g hkg
    exact hco k g hkg
  · intro m v hco k g hkg
    exact hco k g hkg
  · intro m v maxA
    rfl

/-- Witness for `c7_cache_keyed_and_coherent`: `m7`'s stored key (25, 1)
matches its current parameters, so the tiered-query grid lookup returns the
cached `riskX` with the state unchanged. -/
theorem c7_cache_keyed_and_coherent_witness :
    risk_grid_for_tiered id m7 = (riskX, m7) :=
  (c7_cache_keyed_and_coherent id).1 m7 (25, 1) riskX rfl rfl
